import Mathlib

/-!
Shallow embedding of the kryoptic object, AES and sqlite-storage layers,
with theorems settling the frozen claims about the natural-language spec.
Definitions are translated from the Rust sources under src/; helpers whose
code lives outside src/ (attribute conversions, the richer object layer,
the openssl-backed AES primitive) are modelled from the spec and say so in
their doc comments.
-/

namespace Kryoptic

/-! ## Cryptoki constants (interface layer) -/

def CKR_OK : Nat := 0x00
def CKR_GENERAL_ERROR : Nat := 0x05
def CKR_ATTRIBUTE_SENSITIVE : Nat := 0x11
def CKR_ATTRIBUTE_TYPE_INVALID : Nat := 0x12
def CKR_ATTRIBUTE_VALUE_INVALID : Nat := 0x13
def CKR_DEVICE_MEMORY : Nat := 0x31
def CKR_KEY_SIZE_RANGE : Nat := 0x62
def CKR_KEY_FUNCTION_NOT_PERMITTED : Nat := 0x68
def CKR_MECHANISM_PARAM_INVALID : Nat := 0x71
def CKR_OPERATION_NOT_INITIALIZED : Nat := 0x91
def CKR_TEMPLATE_INCOMPLETE : Nat := 0xd0
def CKR_TEMPLATE_INCONSISTENT : Nat := 0xd1
def CKR_BUFFER_TOO_SMALL : Nat := 0x150

def CKA_CLASS : Nat := 0x00
def CKA_TOKEN : Nat := 0x01
def CKA_PRIVATE : Nat := 0x02
def CKA_LABEL : Nat := 0x03
def CKA_UNIQUE_ID : Nat := 0x04
def CKA_VALUE : Nat := 0x11
def CKA_KEY_TYPE : Nat := 0x100
def CKA_SENSITIVE : Nat := 0x103
def CKA_DERIVE : Nat := 0x10c
def CKA_PRIVATE_EXPONENT : Nat := 0x123
def CKA_PRIME_1 : Nat := 0x124
def CKA_PRIME_2 : Nat := 0x125
def CKA_EXPONENT_1 : Nat := 0x126
def CKA_EXPONENT_2 : Nat := 0x127
def CKA_COEFFICIENT : Nat := 0x128
def CKA_VALUE_BITS : Nat := 0x160
def CKA_VALUE_LEN : Nat := 0x161
def CKA_EXTRACTABLE : Nat := 0x162
def CKA_MODIFIABLE : Nat := 0x170
def CKA_DESTROYABLE : Nat := 0x173

def CKO_DATA : Nat := 0x00
def CKO_CERTIFICATE : Nat := 0x01
def CKO_PUBLIC_KEY : Nat := 0x02
def CKO_PRIVATE_KEY : Nat := 0x03
def CKO_SECRET_KEY : Nat := 0x04

def CKK_RSA : Nat := 0x00
def CKK_DSA : Nat := 0x01
def CKK_DH : Nat := 0x02
def CKK_EC : Nat := 0x03
def CKK_X9_42_DH : Nat := 0x04
def CKK_GENERIC_SECRET : Nat := 0x10
def CKK_AES : Nat := 0x1f
def CKK_EC_EDWARDS : Nat := 0x40
def CKK_EC_MONTGOMERY : Nat := 0x41

def CKM_AES_ECB : Nat := 0x1081
def CKM_AES_CBC : Nat := 0x1082

/-- The all-ones CK_ULONG sentinel (machine ulong is 64 bits). -/
def CK_UNAVAILABLE_INFORMATION : Nat := 2 ^ 64 - 1

/-! ## Error type (error.rs layer) -/

/-- KError: either a Cryptoki return value or a not-found error carrying the
looked-up identifier (as bytes). -/
inductive KError where
  | RvError (rv : Nat)
  | NotFound (ident : List Nat)
deriving DecidableEq, Repr

deriving instance DecidableEq for Except

/-- KResult, as in the Rust sources. -/
abbrev KResult (α : Type) := Except KError α

/-- The err_rv! macro. -/
def err_rv {α : Type} (rv : Nat) : KResult α := Except.error (KError.RvError rv)

def KResult.unwrapOr {α : Type} (x : KResult α) (d : α) : α :=
  match x with
  | Except.ok a => a
  | Except.error _ => d

/-! ## Attribute layer.
The attribute code (attribute.rs) is not under src/, so conversions are
modelled from the spec (section 3 and 4.1). -/

/-- Modelled from the spec: attribute kinds (spec section 3; attribute.rs is
not under src/). -/
inductive AttrType where
  | BoolType
  | NumType
  | BytesType
  | StringType
  | DateType
  | DenyListType
deriving DecidableEq, Repr

/-- Modelled from the spec: an attribute is a tagged (id, kind, bytes) value
(spec section 3; attribute.rs is not under src/). -/
structure Attribute where
  id : Nat
  atype : AttrType
  value : List Nat
deriving DecidableEq, Repr

def Attribute.get_type (a : Attribute) : Nat := a.id

def Attribute.get_attrtype (a : Attribute) : AttrType := a.atype

def Attribute.get_value (a : Attribute) : List Nat := a.value

/-- Little-endian machine-ulong encoding of a number, 8 bytes. -/
def encodeUlong (n : Nat) : List Nat :=
  (List.range 8).map (fun i => n / 256 ^ i % 256)

/-- Little-endian machine-ulong decoding; defined only on 8-byte strings. -/
def decodeUlong (l : List Nat) : Option Nat :=
  if l.length = 8 then
    some ((List.range 8).foldl (fun s i => s + l.getD i 0 * 256 ^ i) 0)
  else none

/-- Modelled from the spec: to_bool fails with ATTRIBUTE_TYPE_INVALID on a
kind mismatch; a Bool value is a single byte (attribute.rs is not under
src/). -/
def Attribute.to_bool (a : Attribute) : KResult Bool :=
  if a.atype ≠ AttrType.BoolType then err_rv CKR_ATTRIBUTE_TYPE_INVALID
  else
    match a.value with
    | [b] => Except.ok (b ≠ 0)
    | _ => err_rv CKR_ATTRIBUTE_VALUE_INVALID

/-- Modelled from the spec: to_ulong fails with ATTRIBUTE_TYPE_INVALID on a
kind mismatch and ATTRIBUTE_VALUE_INVALID when the bytes do not decode
(attribute.rs is not under src/). -/
def Attribute.to_ulong (a : Attribute) : KResult Nat :=
  if a.atype ≠ AttrType.NumType then err_rv CKR_ATTRIBUTE_TYPE_INVALID
  else
    match decodeUlong a.value with
    | some v => Except.ok v
    | none => err_rv CKR_ATTRIBUTE_VALUE_INVALID

/-- Modelled from the spec: to_bytes yields the raw value bytes
(attribute.rs is not under src/). -/
def Attribute.to_bytes (a : Attribute) : KResult (List Nat) := Except.ok a.value

/-- attribute::from_bool. -/
def from_bool (id : Nat) (b : Bool) : Attribute :=
  ⟨id, AttrType.BoolType, [if b then 1 else 0]⟩

/-- attribute::from_ulong. -/
def from_ulong (id : Nat) (v : Nat) : Attribute :=
  ⟨id, AttrType.NumType, encodeUlong v⟩

/-- attribute::from_bytes. -/
def from_bytes (id : Nat) (v : List Nat) : Attribute :=
  ⟨id, AttrType.BytesType, v⟩

/-- Modelled from the spec: the static id-to-kind schema, restricted to the
ids this development touches; every other id carries raw bytes
(attribute.rs is not under src/). -/
def attrTypeOf (id : Nat) : AttrType :=
  if id = CKA_CLASS ∨ id = CKA_KEY_TYPE ∨ id = CKA_VALUE_LEN ∨ id = CKA_VALUE_BITS then
    AttrType.NumType
  else if id = CKA_TOKEN ∨ id = CKA_PRIVATE ∨ id = CKA_SENSITIVE ∨ id = CKA_EXTRACTABLE ∨
      id = CKA_MODIFIABLE ∨ id = CKA_DESTROYABLE ∨ id = CKA_DERIVE then
    AttrType.BoolType
  else AttrType.BytesType

/-! ## CK_ATTRIBUTE (template entries) -/

/-- A CK_ATTRIBUTE template entry: pValue is none for a null pointer, or the
bytes of the pointed-to buffer; ulValueLen is the caller-declared length. -/
structure CK_ATTRIBUTE where
  type_ : Nat
  pValue : Option (List Nat)
  ulValueLen : Nat
deriving DecidableEq, Repr

/-- The bytes an entry points at (first ulValueLen bytes of its buffer). -/
def CK_ATTRIBUTE.bytes (e : CK_ATTRIBUTE) : List Nat :=
  (e.pValue.getD []).take e.ulValueLen

/-- Modelled from the spec: CK_ATTRIBUTE::to_attribute assigns the kind from
the id schema and copies the pointed-to bytes (attribute.rs is not under
src/). -/
def CK_ATTRIBUTE.to_attribute (e : CK_ATTRIBUTE) : Attribute :=
  ⟨e.type_, attrTypeOf e.type_, e.bytes⟩

/-- Modelled from the spec: CK_ATTRIBUTE::to_ulong decodes the pointed-to
bytes as a machine ulong (attribute.rs is not under src/). -/
def CK_ATTRIBUTE.to_ulong (e : CK_ATTRIBUTE) : KResult Nat :=
  match decodeUlong e.bytes with
  | some v => Except.ok v
  | none => err_rv CKR_ATTRIBUTE_VALUE_INVALID

/-! ## Object (object.rs; the spec adopts the richer variant that also
tracks modified and session, which the storage code relies on). -/

structure Object where
  handle : Nat
  session : Nat
  modified : Bool
  attributes : List Attribute
deriving DecidableEq, Repr

def Object.new : Object := ⟨0, 0, false, []⟩

/-- The create_bool_checker macro body: return the first attribute with the
given id converted to bool (with the default on conversion failure), or the
default when absent. -/
def Object.bool_checker (o : Object) (id : Nat) (d : Bool) : Bool :=
  match o.attributes.find? (fun a => a.get_type == id) with
  | some a => a.to_bool.unwrapOr d
  | none => d

def Object.is_token (o : Object) : Bool := o.bool_checker CKA_TOKEN false
def Object.is_private (o : Object) : Bool := o.bool_checker CKA_PRIVATE true
def Object.is_sensitive (o : Object) : Bool := o.bool_checker CKA_SENSITIVE true
def Object.is_modifiable (o : Object) : Bool := o.bool_checker CKA_MODIFIABLE true
def Object.is_destroyable (o : Object) : Bool := o.bool_checker CKA_DESTROYABLE false
def Object.is_extractable (o : Object) : Bool := o.bool_checker CKA_EXTRACTABLE false

/-- Replace the first attribute with the same type, else append. -/
def insertAttr : List Attribute → Attribute → List Attribute
  | [], a => [a]
  | e :: rest, a =>
      if a.get_type == e.get_type then a :: rest else e :: insertAttr rest a

/-- Object::set_attr (always succeeds; flips the modified flag per the
spec's richer object variant). -/
def Object.set_attr (o : Object) (a : Attribute) : Object :=
  { o with modified := true, attributes := insertAttr o.attributes a }

def Object.reset_modified (o : Object) : Object := { o with modified := false }

def Object.set_handle (o : Object) (h : Nat) : Object := { o with handle := h }

def Object.set_session (o : Object) (s : Nat) : Object := { o with session := s }

def Object.get_attributes (o : Object) : List Attribute := o.attributes

/-- First attribute with the given type, if any. -/
def Object.attr_with_type (o : Object) (t : Nat) : Option Attribute :=
  o.attributes.find? (fun a => a.get_type == t)

/-- The attr_as_type macro body for ulongs. -/
def Object.get_attr_as_ulong (o : Object) (t : Nat) : KResult Nat :=
  match o.attr_with_type t with
  | some attr =>
      if attr.get_attrtype ≠ AttrType.NumType then err_rv CKR_ATTRIBUTE_TYPE_INVALID
      else attr.to_ulong
  | none => Except.error (KError.NotFound (encodeUlong t))

/-- The attr_as_type macro body for byte strings. -/
def Object.get_attr_as_bytes (o : Object) (t : Nat) : KResult (List Nat) :=
  match o.attr_with_type t with
  | some attr =>
      if attr.get_attrtype ≠ AttrType.BytesType then err_rv CKR_ATTRIBUTE_TYPE_INVALID
      else attr.to_bytes
  | none => Except.error (KError.NotFound (encodeUlong t))

/-- Modelled from the spec: match_ck_attr is id equality and byte equality
of the value (spec section 4.1; attribute.rs is not under src/). -/
def Attribute.match_ck_attr (a : Attribute) (ck : CK_ATTRIBUTE) : Bool :=
  a.get_type == ck.type_ && a.get_value == ck.bytes

/-- Object::match_template. -/
def Object.match_template (o : Object) (template : List CK_ATTRIBUTE) : Bool :=
  template.all (fun ck => o.attributes.any (fun a => a.match_ck_attr ck))

/-! ## Sensitivity tables and gating (object.rs) -/

def SENSITIVE_CKK_RSA : List Nat :=
  [ CKA_PRIVATE_EXPONENT, CKA_PRIME_1, CKA_PRIME_2, CKA_EXPONENT_1,
    CKA_EXPONENT_2, CKA_COEFFICIENT ]

def SENSITIVE_CKK_EC : List Nat := [ CKA_VALUE ]

def SENSITIVE_CKK_DH : List Nat := [ CKA_VALUE, CKA_VALUE_BITS ]

def SENSITIVE_CKK_DSA : List Nat := [ CKA_VALUE ]

def SENSITIVE_CKK_GENERIC_SECRET : List Nat := [ CKA_VALUE, CKA_VALUE_LEN ]

def SENSITIVE : List (Nat × List Nat) :=
  [ (CKK_RSA, SENSITIVE_CKK_RSA),
    (CKK_EC, SENSITIVE_CKK_EC),
    (CKK_EC_EDWARDS, SENSITIVE_CKK_EC),
    (CKK_EC_MONTGOMERY, SENSITIVE_CKK_EC),
    (CKK_DH, SENSITIVE_CKK_DH),
    (CKK_X9_42_DH, SENSITIVE_CKK_DH),
    (CKK_DSA, SENSITIVE_CKK_DSA),
    (CKK_GENERIC_SECRET, SENSITIVE_CKK_GENERIC_SECRET) ]

/-- Object::private_key_type: scan all attributes, the last CKA_CLASS and
CKA_KEY_TYPE values win (conversion failures become the sentinel); return
the key type when the class is private or secret key. -/
def Object.private_key_type (o : Object) : Option Nat :=
  let st := o.attributes.foldl
    (fun (st : Nat × Nat) (attr : Attribute) =>
      if attr.get_type = CKA_CLASS then
        (attr.to_ulong.unwrapOr CK_UNAVAILABLE_INFORMATION, st.2)
      else if attr.get_type = CKA_KEY_TYPE then
        (st.1, attr.to_ulong.unwrapOr CK_UNAVAILABLE_INFORMATION)
      else st)
    (CK_UNAVAILABLE_INFORMATION, CK_UNAVAILABLE_INFORMATION)
  if st.1 = CKO_PRIVATE_KEY ∨ st.1 = CKO_SECRET_KEY then some st.2 else none

/-- Object::needs_sensitivity_check. -/
def Object.needs_sensitivity_check (o : Object) : Option (List Nat) :=
  match o.private_key_type with
  | none => none
  | some kt => (SENSITIVE.find? (fun t => t.1 == kt)).map (fun t => t.2)

/-- Object::is_sensitive_attr. -/
def Object.is_sensitive_attr (o : Object) (id : Nat) (sense : List Nat) : Bool :=
  if ¬ sense.contains id then false
  else if o.is_sensitive then true
  else if ¬ o.is_extractable then true
  else false

/-! ## fill_template (object.rs) -/

/-- The body of the inner attribute-search loop of fill_template for one
template entry: fill from the first matching attribute, honoring the null
pointer and buffer-size conventions. -/
def fillFind (o : Object) (elem : CK_ATTRIBUTE) (rv : Nat) : CK_ATTRIBUTE × Nat :=
  match o.attributes.find? (fun a => a.get_type == elem.type_) with
  | none => ({ elem with ulValueLen := CK_UNAVAILABLE_INFORMATION }, CKR_ATTRIBUTE_TYPE_INVALID)
  | some attr =>
      match elem.pValue with
      | none => ({ elem with ulValueLen := attr.get_value.length }, rv)
      | some buf =>
          let val := attr.get_value
          if elem.ulValueLen < val.length then
            ({ elem with ulValueLen := CK_UNAVAILABLE_INFORMATION }, CKR_BUFFER_TOO_SMALL)
          else
            ({ elem with pValue := some (val ++ buf.drop val.length), ulValueLen := val.length }, rv)

/-- One iteration of the fill_template loop: the sensitivity gate first,
then the attribute search. -/
def fillOne (o : Object) (sense : Option (List Nat)) (elem : CK_ATTRIBUTE) (rv : Nat) :
    CK_ATTRIBUTE × Nat :=
  match sense with
  | some s =>
      if o.is_sensitive_attr elem.type_ s then
        ({ elem with ulValueLen := CK_UNAVAILABLE_INFORMATION }, CKR_ATTRIBUTE_SENSITIVE)
      else fillFind o elem rv
  | none => fillFind o elem rv

/-- One step of the fill_template fold: collect the updated entry, thread
the return value. -/
def fillStep (o : Object) (sense : Option (List Nat))
    (acc : List CK_ATTRIBUTE × Nat) (elem : CK_ATTRIBUTE) : List CK_ATTRIBUTE × Nat :=
  let r := fillOne o sense elem acc.2
  (acc.1 ++ [r.1], r.2)

/-- Object::fill_template: process every entry, threading the return value
rv (each error assignment overwrites rv); return the updated template and
Ok when rv stayed CKR_OK, the error otherwise. -/
def Object.fill_template (o : Object) (template : List CK_ATTRIBUTE) :
    List CK_ATTRIBUTE × KResult Unit :=
  let sense := o.needs_sensitivity_check
  let acc := template.foldl (fillStep o sense) ([], CKR_OK)
  (acc.1, if acc.2 = CKR_OK then Except.ok () else err_rv acc.2)

/-! ## Lemmas about fill_template -/

/-- The per-entry output of fillFind is independent of the incoming rv, and
the outgoing rv is the incoming one unless the entry produced an error. -/
lemma fillFind_rv (o : Object) (e : CK_ATTRIBUTE) (rv : Nat) :
    fillFind o e rv = ((fillFind o e CKR_OK).1,
      if (fillFind o e CKR_OK).2 = CKR_OK then rv else (fillFind o e CKR_OK).2) := by
  unfold fillFind
  cases h : o.attributes.find? (fun a => a.get_type == e.type_) with
  | none => simp [CKR_ATTRIBUTE_TYPE_INVALID, CKR_OK]
  | some attr =>
    rcases hp : e.pValue with _ | buf
    · simp [hp]
    · by_cases hlt : e.ulValueLen < attr.get_value.length <;>
        simp [hp, hlt, CKR_BUFFER_TOO_SMALL, CKR_OK]

/-- The per-entry output of fillOne is independent of the incoming rv, and
the outgoing rv is the incoming one unless the entry produced an error. -/
lemma fillOne_rv (o : Object) (sense : Option (List Nat)) (e : CK_ATTRIBUTE) (rv : Nat) :
    fillOne o sense e rv = ((fillOne o sense e CKR_OK).1,
      if (fillOne o sense e CKR_OK).2 = CKR_OK then rv else (fillOne o sense e CKR_OK).2) := by
  cases sense with
  | none => exact fillFind_rv o e rv
  | some s =>
    unfold fillOne
    by_cases hs : o.is_sensitive_attr e.type_ s
    · simp [hs, CKR_ATTRIBUTE_SENSITIVE, CKR_OK]
    · simp only [hs]
      exact fillFind_rv o e rv

/-- The last non-OK code of a code list, CKR_OK when there is none. -/
def lastCode (codes : List Nat) : Nat :=
  codes.foldl (fun r c => if c = CKR_OK then r else c) CKR_OK

/-- The fill_template fold, unrolled: the output entries are the per-entry
results (computed independently of each other) and the final rv is the fold
of the per-entry codes, later errors overwriting earlier ones. -/
lemma fill_loop (o : Object) (sense : Option (List Nat)) :
    ∀ (template : List CK_ATTRIBUTE) (l : List CK_ATTRIBUTE) (rv : Nat),
    template.foldl (fillStep o sense) (l, rv) =
      (l ++ template.map (fun e => (fillOne o sense e CKR_OK).1),
       (template.map (fun e => (fillOne o sense e CKR_OK).2)).foldl
         (fun r c => if c = CKR_OK then r else c) rv) := by
  intro template
  induction template with
  | nil => intro l rv; simp
  | cons e rest ih =>
    intro l rv
    simp only [List.foldl_cons, List.map_cons]
    have hstep : fillStep o sense (l, rv) e =
        (l ++ [(fillOne o sense e CKR_OK).1],
         if (fillOne o sense e CKR_OK).2 = CKR_OK then rv else (fillOne o sense e CKR_OK).2) := by
      unfold fillStep
      rw [fillOne_rv o sense e rv]
    rw [hstep]
    by_cases h : (fillOne o sense e CKR_OK).2 = CKR_OK <;> simp [h, ih]

/-- Claim C1: an object of private- or secret-key class whose key type is in
the sensitive table and which is sensitive or non-extractable answers a
read of any attribute in its class's sensitive set with the length sentinel
and ATTRIBUTE_SENSITIVE. -/
theorem fill_template_sensitive_single (o : Object) (kt : Nat) (s : List Nat) (e : CK_ATTRIBUTE)
    (hk : o.private_key_type = some kt)
    (hs : (SENSITIVE.find? (fun t => t.1 == kt)).map (fun t => t.2) = some s)
    (hid : e.type_ ∈ s)
    (hc : o.is_sensitive = true ∨ o.is_extractable = false) :
    o.fill_template [e] =
      ([{ e with ulValueLen := CK_UNAVAILABLE_INFORMATION }], err_rv CKR_ATTRIBUTE_SENSITIVE) := by
  have hsense : o.needs_sensitivity_check = some s := by
    unfold Object.needs_sensitivity_check
    rw [hk]
    exact hs
  have hcont : s.contains e.type_ = true := List.elem_eq_true_of_mem hid
  have hattr : o.is_sensitive_attr e.type_ s = true := by
    unfold Object.is_sensitive_attr
    rcases hc with h | h <;> simp [hid, h]
  unfold Object.fill_template
  rw [hsense]
  simp only [List.foldl_cons, List.foldl_nil, fillStep, fillOne, hattr]
  simp [CKR_ATTRIBUTE_SENSITIVE, CKR_OK]

/-- Witness object for C1: a generic-secret key that stores neither
CKA_SENSITIVE nor CKA_EXTRACTABLE. -/
def c1Obj : Object :=
  ⟨0, 0, false,
    [⟨CKA_CLASS, AttrType.NumType, encodeUlong CKO_SECRET_KEY⟩,
     ⟨CKA_KEY_TYPE, AttrType.NumType, encodeUlong CKK_GENERIC_SECRET⟩,
     ⟨CKA_VALUE, AttrType.BytesType, [9, 9, 9, 9]⟩]⟩

/-- Witness for C1 at a concrete generic-secret object and a CKA_VALUE
read. -/
theorem fill_template_sensitive_single_witness :
    c1Obj.fill_template [⟨CKA_VALUE, none, 16⟩] =
      ([⟨CKA_VALUE, none, CK_UNAVAILABLE_INFORMATION⟩], err_rv CKR_ATTRIBUTE_SENSITIVE) :=
  fill_template_sensitive_single c1Obj CKK_GENERIC_SECRET SENSITIVE_CKK_GENERIC_SECRET
    ⟨CKA_VALUE, none, 16⟩ (by decide) (by decide) (by decide) (Or.inl (by decide))

/-- Counterexample object for C3: a sensitive generic-secret key with a
readable 4-byte label. -/
def c3Obj : Object :=
  ⟨0, 0, false,
    [⟨CKA_CLASS, AttrType.NumType, encodeUlong CKO_SECRET_KEY⟩,
     ⟨CKA_KEY_TYPE, AttrType.NumType, encodeUlong CKK_GENERIC_SECRET⟩,
     ⟨CKA_LABEL, AttrType.BytesType, [1, 2, 3, 4]⟩,
     ⟨CKA_VALUE, AttrType.BytesType, [9, 9, 9, 9]⟩]⟩

/-- Counterexample template for C3: a sensitive-gated read followed by a
too-small buffer. -/
def c3Template : List CK_ATTRIBUTE :=
  [⟨CKA_VALUE, none, 0⟩, ⟨CKA_LABEL, some [0, 0, 0, 0], 1⟩]

/-- Claim C3 counterexample: on a template whose first entry is gated by
ATTRIBUTE_SENSITIVE and whose second entry hits BUFFER_TOO_SMALL, the call
returns BUFFER_TOO_SMALL, so ATTRIBUTE_SENSITIVE does not take precedence. -/
theorem fill_template_last_error_wins :
    c3Obj.is_sensitive_attr CKA_VALUE SENSITIVE_CKK_GENERIC_SECRET = true ∧
    c3Obj.fill_template c3Template =
      ([⟨CKA_VALUE, none, CK_UNAVAILABLE_INFORMATION⟩,
        ⟨CKA_LABEL, some [0, 0, 0, 0], CK_UNAVAILABLE_INFORMATION⟩],
       err_rv CKR_BUFFER_TOO_SMALL) ∧
    CKR_BUFFER_TOO_SMALL ≠ CKR_ATTRIBUTE_SENSITIVE := by decide

/-- Claim C3 (amended): fill_template processes every template entry (each
output entry is the per-entry result, independent of the rest of the
template), and the code it returns is the last non-OK per-entry code, later
errors overwriting earlier ones. -/
theorem fill_template_processes_all (o : Object) (template : List CK_ATTRIBUTE) :
    (o.fill_template template).1 =
      template.map (fun e => (fillOne o o.needs_sensitivity_check e CKR_OK).1) ∧
    (o.fill_template template).2 =
      (if lastCode (template.map (fun e => (fillOne o o.needs_sensitivity_check e CKR_OK).2)) = CKR_OK
       then Except.ok ()
       else err_rv (lastCode (template.map (fun e => (fillOne o o.needs_sensitivity_check e CKR_OK).2)))) := by
  unfold Object.fill_template lastCode
  simp only [fill_loop]
  simp

/-! ## Lemmas for the default sensitivity and extractability (C9) -/

/-- A false bool_checker with default true pins an explicitly stored false
attribute. -/
lemma bool_checker_false_of (o : Object) (id : Nat) (h : o.bool_checker id true = false) :
    ∃ a, o.attributes.find? (fun x => x.get_type == id) = some a ∧
      a.to_bool = Except.ok false := by
  unfold Object.bool_checker at h
  cases hf : o.attributes.find? (fun x => x.get_type == id) with
  | none => rw [hf] at h; simp at h
  | some a =>
    rw [hf] at h
    dsimp only at h
    cases hb : a.to_bool with
    | error e => rw [hb] at h; simp [KResult.unwrapOr] at h
    | ok b =>
      rw [hb] at h
      simp only [KResult.unwrapOr] at h
      exact ⟨a, rfl, by rw [hb, h]⟩

/-- A true bool_checker with default false pins an explicitly stored true
attribute. -/
lemma bool_checker_true_of (o : Object) (id : Nat) (h : o.bool_checker id false = true) :
    ∃ a, o.attributes.find? (fun x => x.get_type == id) = some a ∧
      a.to_bool = Except.ok true := by
  unfold Object.bool_checker at h
  cases hf : o.attributes.find? (fun x => x.get_type == id) with
  | none => rw [hf] at h; simp at h
  | some a =>
    rw [hf] at h
    dsimp only at h
    cases hb : a.to_bool with
    | error e => rw [hb] at h; simp [KResult.unwrapOr] at h
    | ok b =>
      rw [hb] at h
      simp only [KResult.unwrapOr] at h
      exact ⟨a, rfl, by rw [hb, h]⟩

/-- Claim C9: an absent CKA_SENSITIVE is treated as true and an absent
CKA_EXTRACTABLE as false, so an object storing neither has every id of the
sensitive set withheld, and an attribute of the sensitive set escapes the
gate only on an object that explicitly stores SENSITIVE=false and
EXTRACTABLE=true. -/
theorem sensitive_defaults (o : Object) (s : List Nat) (id : Nat)
    (hns : o.attributes.find? (fun a => a.get_type == CKA_SENSITIVE) = none)
    (hne : o.attributes.find? (fun a => a.get_type == CKA_EXTRACTABLE) = none)
    (hid : id ∈ s) :
    o.is_sensitive = true ∧ o.is_extractable = false ∧
    o.is_sensitive_attr id s = true ∧
    (∀ o2 : Object, o2.is_sensitive_attr id s = false →
      o2.is_sensitive = false ∧ o2.is_extractable = true ∧
      (∃ a, o2.attributes.find? (fun x => x.get_type == CKA_SENSITIVE) = some a ∧
        a.to_bool = Except.ok false) ∧
      (∃ a, o2.attributes.find? (fun x => x.get_type == CKA_EXTRACTABLE) = some a ∧
        a.to_bool = Except.ok true)) := by
  have hcont : s.contains id = true := List.elem_eq_true_of_mem hid
  have h1 : o.is_sensitive = true := by
    simp [Object.is_sensitive, Object.bool_checker, hns]
  have h2 : o.is_extractable = false := by
    simp [Object.is_extractable, Object.bool_checker, hne]
  refine ⟨h1, h2, ?_, ?_⟩
  · simp [Object.is_sensitive_attr, hid, h1]
  · intro o2 hgate
    unfold Object.is_sensitive_attr at hgate
    simp only [hcont] at hgate
    by_cases hsen : o2.is_sensitive
    · simp [hsen] at hgate
    · by_cases hext : o2.is_extractable
      · have hsen' : o2.is_sensitive = false := by simpa using hsen
        exact ⟨hsen', hext,
          bool_checker_false_of o2 CKA_SENSITIVE hsen',
          bool_checker_true_of o2 CKA_EXTRACTABLE hext⟩
      · simp [hsen, hext] at hgate

/-- Witness for C9 at a concrete attribute-less object and the EC sensitive
set. -/
theorem sensitive_defaults_witness :
    Object.new.is_sensitive = true ∧ Object.new.is_extractable = false ∧
    Object.new.is_sensitive_attr CKA_VALUE SENSITIVE_CKK_EC = true ∧
    (∀ o2 : Object, o2.is_sensitive_attr CKA_VALUE SENSITIVE_CKK_EC = false →
      o2.is_sensitive = false ∧ o2.is_extractable = true ∧
      (∃ a, o2.attributes.find? (fun x => x.get_type == CKA_SENSITIVE) = some a ∧
        a.to_bool = Except.ok false) ∧
      (∃ a, o2.attributes.find? (fun x => x.get_type == CKA_EXTRACTABLE) = some a ∧
        a.to_bool = Except.ok true)) :=
  sensitive_defaults Object.new SENSITIVE_CKK_EC CKA_VALUE (by decide) (by decide) (by decide)

/-! ## AES key factory (aes.rs) -/

/-- aes.rs check_key_len: AES keys are 16, 24 or 32 bytes. -/
def check_key_len (len : Nat) : KResult Unit :=
  if len = 16 ∨ len = 24 ∨ len = 32 then Except.ok () else err_rv CKR_KEY_SIZE_RANGE

/-- Modelled from the spec: Object::check_or_set_attr (richer object layer,
not under src/): when an attribute with the same id is present report
whether its value equals the given one, otherwise set it (spec sections 3
and 4.2: a present VALUE_LEN must equal the computed length). -/
def Object.check_or_set_attr (o : Object) (attr : Attribute) : KResult (Bool × Object) :=
  match o.attributes.find? (fun a => a.get_type == attr.get_type) with
  | some a => Except.ok (a.get_value == attr.get_value, o)
  | none => Except.ok (true, o.set_attr attr)

/-- Modelled from the spec: ObjectFactory::get_key_buffer_len (richer object
layer, not under src/): the byte length of CKA_VALUE. -/
def get_key_buffer_len (o : Object) : KResult Nat :=
  match o.get_attr_as_bytes CKA_VALUE with
  | Except.error e => Except.error e
  | Except.ok v => Except.ok v.length

/-- AesKeyFactory::create (aes.rs), taking the result of
default_object_create (richer object layer, not under src/) as a
parameter: validate the key length and check-or-set CKA_VALUE_LEN. -/
def AesKeyFactory.create_from (objr : KResult Object) : KResult Object :=
  match objr with
  | Except.error e => Except.error e
  | Except.ok obj =>
    match get_key_buffer_len obj with
    | Except.error e => Except.error e
    | Except.ok len =>
      match check_key_len len with
      | Except.error e => Except.error e
      | Except.ok _ =>
        match obj.check_or_set_attr (from_ulong CKA_VALUE_LEN len) with
        | Except.error e => Except.error e
        | Except.ok r =>
          if ¬ r.1 then err_rv CKR_ATTRIBUTE_VALUE_INVALID else Except.ok r.2

/-- Modelled from the spec: SecretKeyFactory::set_key_len (richer object
layer, not under src/): the object's VALUE_LEN is required to equal the key
length (set when absent), KEY_SIZE_RANGE on a mismatch. -/
def SecretKeyFactory.set_key_len (o : Object) (len : Nat) : KResult Object :=
  match o.check_or_set_attr (from_ulong CKA_VALUE_LEN len) with
  | Except.error e => Except.error e
  | Except.ok r => if ¬ r.1 then err_rv CKR_KEY_SIZE_RANGE else Except.ok r.2

/-- AesKeyFactory::set_key (aes.rs): validate the length, store CKA_VALUE,
then record the key length. -/
def AesKeyFactory.set_key (o : Object) (key : List Nat) : KResult Object :=
  match check_key_len key.length with
  | Except.error e => Except.error e
  | Except.ok _ =>
    SecretKeyFactory.set_key_len (o.set_attr (from_bytes CKA_VALUE key)) key.length

/-- Vec::zeroize: overwrite every byte of the buffer with zero. -/
def zeroize (d : List Nat) : List Nat := List.replicate d.length 0

/-- Modelled from the spec: SecretKeyFactory::import_from_wrapped (richer
object layer, not under src/): build the object via default_object_unwrap
(whose result is the parameter) and install the plaintext as the key. -/
def SecretKeyFactory.import_from_wrapped (unwrapObj : KResult Object)
    (data : List Nat) : KResult Object :=
  match unwrapObj with
  | Except.error e => Except.error e
  | Except.ok obj => AesKeyFactory.set_key obj data

/-- The tail of AesKeyFactory::import_from_wrapped shared by both template
shapes: validate the (possibly truncated) plaintext length, zeroizing the
buffer on failure, then delegate to the secret-key import. The second
component is the final contents of the plaintext buffer. -/
def aesImportTail (unwrapObj : KResult Object) (d : List Nat) :
    KResult Object × List Nat :=
  match check_key_len d.length with
  | Except.error e => (Except.error e, zeroize d)
  | Except.ok _ => (SecretKeyFactory.import_from_wrapped unwrapObj d, d)

/-- AesKeyFactory::import_from_wrapped (aes.rs): compare the template's
VALUE_LEN (when given) with the plaintext length, zeroizing and rejecting
with KEY_SIZE_RANGE when it asks for more, truncating when it asks for
less, then validate the AES length. The default_object_unwrap result is a
parameter. The second component is the final contents of the plaintext
buffer. -/
def AesKeyFactory.import_from_wrapped (unwrapObj : KResult Object)
    (data : List Nat) (template : List CK_ATTRIBUTE) :
    KResult Object × List Nat :=
  match template.find? (fun x => x.type_ == CKA_VALUE_LEN) with
  | some e =>
    match e.to_ulong with
    | Except.error err => (Except.error err, data)
    | Except.ok len =>
      if len > data.length then (err_rv CKR_KEY_SIZE_RANGE, zeroize data)
      else aesImportTail unwrapObj (if len < data.length then data.take len else data)
  | none => aesImportTail unwrapObj data

/-! ## AES encrypt-data KDF (aes.rs) -/

/-- The CK_KEY_DERIVATION_STRING_DATA parameter block: pData is none for a
null pointer. -/
structure CK_KEY_DERIVATION_STRING_DATA where
  pData : Option (List Nat)
  ulLen : Nat
deriving DecidableEq, Repr

/-- The CK_AES_CBC_ENCRYPT_DATA_PARAMS parameter block: a 16-byte IV array
plus pointer and length. -/
structure CK_AES_CBC_ENCRYPT_DATA_PARAMS where
  iv : List Nat
  pData : Option (List Nat)
  length : Nat
deriving DecidableEq, Repr

structure AesKDFOperation where
  prf : Nat
  finalized : Bool
  iv : List Nat
  data : List Nat
deriving DecidableEq, Repr

/-- AesKDFOperation::aes_ecb_new (aes.rs). -/
def AesKDFOperation.aes_ecb_new (params : CK_KEY_DERIVATION_STRING_DATA) :
    KResult AesKDFOperation :=
  if params.pData = none ∨ params.ulLen = 0 ∨ params.ulLen % 16 ≠ 0 then
    err_rv CKR_MECHANISM_PARAM_INVALID
  else
    Except.ok ⟨CKM_AES_ECB, false, [], (params.pData.getD []).take params.ulLen⟩

/-- AesKDFOperation::aes_cbc_new (aes.rs): the IV slice is the 16-byte
parameter array. -/
def AesKDFOperation.aes_cbc_new (params : CK_AES_CBC_ENCRYPT_DATA_PARAMS) :
    KResult AesKDFOperation :=
  if params.pData = none ∨ params.length = 0 ∨ params.length % 16 ≠ 0 then
    err_rv CKR_MECHANISM_PARAM_INVALID
  else
    Except.ok ⟨CKM_AES_CBC, false, params.iv.take 16, (params.pData.getD []).take params.length⟩

/-- Modelled from the spec: Object::check_key_ops (richer object layer, not
under src/): the key must have the given class and key type and allow the
given operation, else KEY_FUNCTION_NOT_PERMITTED (spec section 4.3). -/
def Object.check_key_ops (o : Object) (c kt op : Nat) : KResult Unit :=
  if o.get_attr_as_ulong CKA_CLASS = Except.ok c ∧
      o.get_attr_as_ulong CKA_KEY_TYPE = Except.ok kt ∧
      o.bool_checker op false = true then
    Except.ok ()
  else err_rv CKR_KEY_FUNCTION_NOT_PERMITTED

/-- Modelled from the spec: the primitive provider is an opaque external
collaborator (spec sections 1 and 2); an encryption operation exposes the
ciphertext length for an input length and the one-shot ciphertext. -/
structure AesCipherOp where
  encLen : Nat → Nat
  enc : List Nat → List Nat

/-- Modelled from the spec: a provider assigns an encryption operation to a
mechanism, key bytes and IV (the primitive provider is out of scope). -/
abbrev AesProvider := Nat → List Nat → List Nat → AesCipherOp

/-- Modelled from the spec: AesOperation::encrypt_new (ossl backend, not
under src/) binds an encryption operation to the mechanism, the IV and the
key's CKA_VALUE. -/
def AesOperation.encrypt_new (provider : AesProvider) (mech : Nat)
    (iv : List Nat) (key : Object) : KResult AesCipherOp :=
  match key.get_attr_as_bytes CKA_VALUE with
  | Except.error e => Except.error e
  | Except.ok kv => Except.ok (provider mech kv iv)

/-- Modelled from the spec: SecretKeyFactory::get_key_len (richer object
layer, not under src/): CKA_VALUE_LEN as a number, zero when absent or
unreadable. -/
def SecretKeyFactory.get_key_len (o : Object) : Nat :=
  (o.get_attr_as_ulong CKA_VALUE_LEN).unwrapOr 0

/-- AesKeyFactory::default_object_derive (aes.rs), taking the result of
internal_object_derive (richer object layer, not under src/) as a
parameter: a nonzero requested key length must be a valid AES length. -/
def AesKeyFactory.default_object_derive (internal : KResult Object) : KResult Object :=
  match internal with
  | Except.error e => Except.error e
  | Except.ok obj =>
    if SecretKeyFactory.get_key_len obj ≠ 0 ∧
        (check_key_len (SecretKeyFactory.get_key_len obj)).isOk = false then
      err_rv CKR_TEMPLATE_INCONSISTENT
    else Except.ok obj

/-- First template entry of a given type, decoded as a machine ulong. -/
def templateUlong (template : List CK_ATTRIBUTE) (id : Nat) : Option Nat :=
  (template.find? (fun e => e.type_ == id)).bind (fun e => decodeUlong e.bytes)

/-- Modelled from the spec: ObjectFactories::get_obj_factory_from_key_template
(richer object layer, not under src/): factories are selected by the
template's CLASS and KEY_TYPE; only the AES secret-key factory is in scope
of this development, other selections are out of scope and mapped to an
error. -/
def get_obj_factory_from_key_template (template : List CK_ATTRIBUTE) : KResult Unit :=
  if templateUlong template CKA_CLASS = some CKO_SECRET_KEY ∧
      templateUlong template CKA_KEY_TYPE = some CKK_AES then
    Except.ok ()
  else err_rv CKR_ATTRIBUTE_VALUE_INVALID

/-- The body of AesKDFOperation::derive (aes.rs) after the finalized gate:
check the base key, pick the factory, derive the object, run the bound
encryption once over the captured data (requiring the announced length)
and install the ciphertext as the key material. -/
def aesKdfDeriveBody (provider : AesProvider) (op : AesKDFOperation)
    (key : Object) (template : List CK_ATTRIBUTE) (internal : KResult Object) :
    KResult (List Object) :=
  match key.check_key_ops CKO_SECRET_KEY CKK_AES CKA_DERIVE with
  | Except.error e => Except.error e
  | Except.ok _ =>
    match get_obj_factory_from_key_template template with
    | Except.error e => Except.error e
    | Except.ok _ =>
      match AesKeyFactory.default_object_derive internal with
      | Except.error e => Except.error e
      | Except.ok obj =>
        match AesOperation.encrypt_new provider op.prf op.iv key with
        | Except.error e => Except.error e
        | Except.ok cop =>
          if (cop.enc op.data).length ≠ cop.encLen op.data.length then
            err_rv CKR_GENERAL_ERROR
          else
            match AesKeyFactory.set_key obj (cop.enc op.data) with
            | Except.error e => Except.error e
            | Except.ok obj2 => Except.ok [obj2]

/-- AesKDFOperation::derive (aes.rs): a finalized operation refuses with
OPERATION_NOT_INITIALIZED; otherwise the operation becomes finalized before
any work happens and the body runs. Returns the result together with the
operation's new state. -/
def AesKDFOperation.derive (provider : AesProvider) (op : AesKDFOperation)
    (key : Object) (template : List CK_ATTRIBUTE) (internal : KResult Object) :
    KResult (List Object) × AesKDFOperation :=
  if op.finalized then (err_rv CKR_OPERATION_NOT_INITIALIZED, op)
  else
    (aesKdfDeriveBody provider op key template internal, { op with finalized := true })

/-! ## Lemmas about set_attr and set_key -/

/-- Inserting an attribute makes it the first of its type. -/
lemma find_insertAttr_self (l : List Attribute) (a : Attribute) :
    (insertAttr l a).find? (fun x => x.get_type == a.get_type) = some a := by
  induction l with
  | nil => simp [insertAttr, List.find?]
  | cons e rest ih =>
    unfold insertAttr
    by_cases h : a.get_type = e.get_type
    · simp [h, List.find?]
    · have h2 : (e.get_type == a.get_type) = false := by
        simp [Ne.symm h]
      simp only [beq_iff_eq, h, if_false]
      rw [List.find?_cons_of_neg _ (by simp [h2]), ih]

/-- Inserting an attribute leaves the lookup of every other type alone. -/
lemma find_insertAttr_ne (l : List Attribute) (a : Attribute) (t : Nat) (h : a.get_type ≠ t) :
    (insertAttr l a).find? (fun x => x.get_type == t) = l.find? (fun x => x.get_type == t) := by
  induction l with
  | nil =>
    have h2 : (a.get_type == t) = false := by simp [h]
    simp [insertAttr, List.find?, h2]
  | cons e rest ih =>
    unfold insertAttr
    by_cases he : a.get_type = e.get_type
    · have h1 : (e.get_type == t) = false := by simp [← he, h]
      simp only [beq_iff_eq, he, if_true]
      rw [List.find?_cons_of_neg _ (by simp [h, ← he]),
          List.find?_cons_of_neg _ (by simp [h1])]
    · by_cases hp : (e.get_type == t) = true
      · simp only [beq_iff_eq, he, if_false]
        rw [List.find?_cons_of_pos _ (by simp [hp]), List.find?_cons_of_pos _ (by simp [hp])]
      · simp only [beq_iff_eq, he, if_false]
        rw [List.find?_cons_of_neg _ (by simp_all), List.find?_cons_of_neg _ (by simp_all), ih]

lemma from_ulong_get_type (t v : Nat) : (from_ulong t v).get_type = t := rfl

lemma from_bytes_get_type (t : Nat) (v : List Nat) : (from_bytes t v).get_type = t := rfl

lemma attr_with_type_set_attr_self (o : Object) (a : Attribute) :
    (o.set_attr a).attr_with_type a.get_type = some a := by
  unfold Object.attr_with_type Object.set_attr
  exact find_insertAttr_self o.attributes a

lemma attr_with_type_set_attr_ne (o : Object) (a : Attribute) (t : Nat) (h : a.get_type ≠ t) :
    (o.set_attr a).attr_with_type t = o.attr_with_type t := by
  unfold Object.attr_with_type Object.set_attr
  exact find_insertAttr_ne o.attributes a t h

/-- What a successful AesKeyFactory::set_key guarantees: the key bytes are
the object's CKA_VALUE, the stored VALUE_LEN bytes encode their length, and
the length is a valid AES length. -/
lemma set_key_ok (o : Object) (key : List Nat) (obj2 : Object)
    (h : AesKeyFactory.set_key o key = Except.ok obj2) :
    obj2.attr_with_type CKA_VALUE = some (from_bytes CKA_VALUE key) ∧
    (∃ a, obj2.attr_with_type CKA_VALUE_LEN = some a ∧
      a.get_value = encodeUlong key.length) ∧
    (key.length = 16 ∨ key.length = 24 ∨ key.length = 32) := by
  unfold AesKeyFactory.set_key check_key_len at h
  by_cases hlen : key.length = 16 ∨ key.length = 24 ∨ key.length = 32
  · simp only [hlen, if_true] at h
    unfold SecretKeyFactory.set_key_len Object.check_or_set_attr at h
    cases hf : (o.set_attr (from_bytes CKA_VALUE key)).attributes.find?
        (fun a => a.get_type == (from_ulong CKA_VALUE_LEN key.length).get_type) with
    | some a =>
      rw [hf] at h
      dsimp only at h
      cases hok : (a.get_value == (from_ulong CKA_VALUE_LEN key.length).get_value) with
      | true =>
        rw [hok] at h
        simp at h
        subst h
        refine ⟨?_, ⟨a, hf, ?_⟩, hlen⟩
        · exact attr_with_type_set_attr_self o (from_bytes CKA_VALUE key)
        · exact eq_of_beq hok
      | false =>
        rw [hok] at h
        simp [err_rv] at h
    | none =>
      rw [hf] at h
      dsimp only at h
      simp at h
      subst h
      constructor
      · have h1 := attr_with_type_set_attr_ne (o.set_attr (from_bytes CKA_VALUE key))
          (from_ulong CKA_VALUE_LEN key.length) CKA_VALUE (by rw [from_ulong_get_type]; decide)
        rw [h1]
        exact attr_with_type_set_attr_self o (from_bytes CKA_VALUE key)
      · refine ⟨⟨from_ulong CKA_VALUE_LEN key.length, ?_, rfl⟩, hlen⟩
        exact attr_with_type_set_attr_self (o.set_attr (from_bytes CKA_VALUE key))
          (from_ulong CKA_VALUE_LEN key.length)
  · simp [hlen, err_rv] at h

/-! ## Claim C4: AES key creation validates the value length -/

/-- Claim C4: every object accepted by AesKeyFactory::create carries a
CKA_VALUE of 16, 24 or 32 bytes and a CKA_VALUE_LEN storing exactly that
length, and a value of any other length is rejected with KEY_SIZE_RANGE. -/
theorem aes_create_value_len :
    (∀ (r : KResult Object) (obj : Object),
      AesKeyFactory.create_from r = Except.ok obj →
      ∃ v, obj.get_attr_as_bytes CKA_VALUE = Except.ok v ∧
        (v.length = 16 ∨ v.length = 24 ∨ v.length = 32) ∧
        ∃ a, obj.attr_with_type CKA_VALUE_LEN = some a ∧
          a.get_value = encodeUlong v.length) ∧
    (∀ (obj : Object) (v : List Nat),
      obj.get_attr_as_bytes CKA_VALUE = Except.ok v →
      ¬(v.length = 16 ∨ v.length = 24 ∨ v.length = 32) →
      AesKeyFactory.create_from (Except.ok obj) = err_rv CKR_KEY_SIZE_RANGE) := by
  constructor
  · intro r obj h
    unfold AesKeyFactory.create_from at h
    cases r with
    | error e => simp at h
    | ok obj0 =>
      dsimp only at h
      unfold get_key_buffer_len at h
      cases hv : obj0.get_attr_as_bytes CKA_VALUE with
      | error e => rw [hv] at h; simp at h
      | ok v =>
        rw [hv] at h
        dsimp only at h
        unfold check_key_len at h
        by_cases hlen : v.length = 16 ∨ v.length = 24 ∨ v.length = 32
        · simp only [hlen, if_true] at h
          unfold Object.check_or_set_attr at h
          cases hf : obj0.attributes.find?
              (fun a => a.get_type == (from_ulong CKA_VALUE_LEN v.length).get_type) with
          | some a =>
            rw [hf] at h
            dsimp only at h
            cases hok : (a.get_value == (from_ulong CKA_VALUE_LEN v.length).get_value) with
            | true =>
              rw [hok] at h
              simp at h
              subst h
              exact ⟨v, hv, hlen, a, hf, eq_of_beq hok⟩
            | false =>
              rw [hok] at h
              simp [err_rv] at h
          | none =>
            rw [hf] at h
            dsimp only at h
            simp at h
            subst h
            have hpres : (obj0.set_attr (from_ulong CKA_VALUE_LEN v.length)).attr_with_type CKA_VALUE =
                obj0.attr_with_type CKA_VALUE :=
              attr_with_type_set_attr_ne obj0 (from_ulong CKA_VALUE_LEN v.length) CKA_VALUE
                (by rw [from_ulong_get_type]; decide)
            refine ⟨v, ?_, hlen, from_ulong CKA_VALUE_LEN v.length, ?_, rfl⟩
            · unfold Object.get_attr_as_bytes at hv ⊢
              rw [hpres]
              exact hv
            · exact attr_with_type_set_attr_self obj0 (from_ulong CKA_VALUE_LEN v.length)
        · simp [hlen, err_rv] at h
  · intro obj v hv hlen
    unfold AesKeyFactory.create_from get_key_buffer_len check_key_len
    dsimp only
    rw [hv]
    dsimp only
    simp [hlen, err_rv]

/-- Witness input for C4: a template-built object with a 24-byte value. -/
def c4Obj : Object := ⟨0, 0, false, [⟨CKA_VALUE, AttrType.BytesType, List.replicate 24 7⟩]⟩

/-- Witness input for C4: a template-built object with a 10-byte value. -/
def c4Bad : Object := ⟨0, 0, false, [⟨CKA_VALUE, AttrType.BytesType, List.replicate 10 7⟩]⟩

/-- The object C4's witness factory call accepts. -/
def c4Out : Object :=
  ⟨0, 0, true, [⟨CKA_VALUE, AttrType.BytesType, List.replicate 24 7⟩, from_ulong CKA_VALUE_LEN 24]⟩

/-- Witness for C4: the accepted 24-byte key records VALUE_LEN = 24 and the
10-byte template is rejected with KEY_SIZE_RANGE. -/
theorem aes_create_value_len_witness :
    (∃ v, c4Out.get_attr_as_bytes CKA_VALUE = Except.ok v ∧
      (v.length = 16 ∨ v.length = 24 ∨ v.length = 32) ∧
      ∃ a, c4Out.attr_with_type CKA_VALUE_LEN = some a ∧
        a.get_value = encodeUlong v.length) ∧
    AesKeyFactory.create_from (Except.ok c4Bad) = err_rv CKR_KEY_SIZE_RANGE :=
  ⟨aes_create_value_len.1 (Except.ok c4Obj) c4Out (by decide),
   aes_create_value_len.2 c4Bad (List.replicate 10 7) (by decide) (by decide)⟩

/-! ## Claim C8: KDF parameter validation -/

/-- Claim C8: constructing an AES encrypt-data KDF operation fails with
MECHANISM_PARAM_INVALID exactly when pData is null, the length is zero or
the length is not a multiple of 16; otherwise it succeeds with the captured
data (and, for CBC, the 16-byte IV) and a fresh non-finalized state. -/
theorem aes_kdf_param_validation (p : CK_KEY_DERIVATION_STRING_DATA)
    (q : CK_AES_CBC_ENCRYPT_DATA_PARAMS) :
    (AesKDFOperation.aes_ecb_new p = err_rv CKR_MECHANISM_PARAM_INVALID ↔
      p.pData = none ∨ p.ulLen = 0 ∨ p.ulLen % 16 ≠ 0) ∧
    (¬(p.pData = none ∨ p.ulLen = 0 ∨ p.ulLen % 16 ≠ 0) →
      AesKDFOperation.aes_ecb_new p =
        Except.ok ⟨CKM_AES_ECB, false, [], (p.pData.getD []).take p.ulLen⟩) ∧
    (AesKDFOperation.aes_cbc_new q = err_rv CKR_MECHANISM_PARAM_INVALID ↔
      q.pData = none ∨ q.length = 0 ∨ q.length % 16 ≠ 0) ∧
    (¬(q.pData = none ∨ q.length = 0 ∨ q.length % 16 ≠ 0) →
      AesKDFOperation.aes_cbc_new q =
        Except.ok ⟨CKM_AES_CBC, false, q.iv.take 16, (q.pData.getD []).take q.length⟩) := by
  unfold AesKDFOperation.aes_ecb_new AesKDFOperation.aes_cbc_new
  by_cases hp : p.pData = none ∨ p.ulLen = 0 ∨ p.ulLen % 16 ≠ 0 <;>
    by_cases hq : q.pData = none ∨ q.length = 0 ∨ q.length % 16 ≠ 0 <;>
      simp [hp, hq, err_rv]

/-- Witness parameter blocks for C8. -/
def p0 : CK_KEY_DERIVATION_STRING_DATA := ⟨some (List.replicate 16 2), 16⟩

def q0 : CK_AES_CBC_ENCRYPT_DATA_PARAMS :=
  ⟨List.replicate 16 3, some (List.replicate 32 4), 32⟩

/-- Witness for C8: valid ECB and CBC parameter blocks construct the
expected operations. -/
theorem aes_kdf_param_validation_witness :
    AesKDFOperation.aes_ecb_new p0 =
      Except.ok ⟨CKM_AES_ECB, false, [], (p0.pData.getD []).take p0.ulLen⟩ ∧
    AesKDFOperation.aes_cbc_new q0 =
      Except.ok ⟨CKM_AES_CBC, false, q0.iv.take 16, (q0.pData.getD []).take q0.length⟩ :=
  ⟨(aes_kdf_param_validation p0 q0).2.1 (by decide),
   (aes_kdf_param_validation p0 q0).2.2.2 (by decide)⟩

/-! ## Claim C7: derive is single-use -/

/-- Claim C7: every derive call leaves the operation finalized (it never
returns to a non-finalized state), and a finalized operation answers every
further derive call with OPERATION_NOT_INITIALIZED, leaving its state
unchanged. -/
theorem aes_kdf_single_use (provider : AesProvider) (op : AesKDFOperation)
    (key : Object) (template : List CK_ATTRIBUTE) (internal : KResult Object) :
    (AesKDFOperation.derive provider op key template internal).2.finalized = true ∧
    (op.finalized = true →
      AesKDFOperation.derive provider op key template internal =
        (err_rv CKR_OPERATION_NOT_INITIALIZED, op)) := by
  constructor
  · by_cases hf : op.finalized <;> simp [AesKDFOperation.derive, hf]
  · intro hf
    simp [AesKDFOperation.derive, hf]

/-- A finalized ECB KDF operation for C7's witness. -/
def opFinalW : AesKDFOperation := ⟨CKM_AES_ECB, true, [], List.replicate 16 0⟩

/-- A concrete provider for the KDF witnesses: identity length, byte-wise
increment. -/
def provW : AesProvider := fun _ _ _ => ⟨fun n => n, fun d => d.map (fun b => (b + 1) % 256)⟩

/-- Witness for C7: a second derive on a finalized operation refuses. -/
theorem aes_kdf_single_use_witness :
    AesKDFOperation.derive provW opFinalW Object.new [] (Except.ok Object.new) =
      (err_rv CKR_OPERATION_NOT_INITIALIZED, opFinalW) :=
  (aes_kdf_single_use provW opFinalW Object.new [] (Except.ok Object.new)).2 rfl

/-! ## Claim C6: wrapped-key import adjusts and zeroizes the plaintext -/

/-- Claim C6: when the template's VALUE_LEN exceeds the decrypted plaintext
the buffer is zeroized before KEY_SIZE_RANGE is returned; a smaller
VALUE_LEN truncates the plaintext before the key is built; and a final
length outside 16, 24, 32 is zeroized and rejected (with or without a
template VALUE_LEN). -/
theorem aes_import_wrapped_rules :
    (∀ (u : KResult Object) (data : List Nat) (template : List CK_ATTRIBUTE)
        (e : CK_ATTRIBUTE) (len : Nat),
      template.find? (fun x => x.type_ == CKA_VALUE_LEN) = some e →
      e.to_ulong = Except.ok len → data.length < len →
      AesKeyFactory.import_from_wrapped u data template =
        (err_rv CKR_KEY_SIZE_RANGE, List.replicate data.length 0)) ∧
    (∀ (u : KResult Object) (data : List Nat) (template : List CK_ATTRIBUTE)
        (e : CK_ATTRIBUTE) (len : Nat) (obj : Object),
      template.find? (fun x => x.type_ == CKA_VALUE_LEN) = some e →
      e.to_ulong = Except.ok len → len < data.length →
      (AesKeyFactory.import_from_wrapped u data template).1 = Except.ok obj →
      obj.attr_with_type CKA_VALUE = some (from_bytes CKA_VALUE (data.take len))) ∧
    (∀ (u : KResult Object) (data : List Nat) (template : List CK_ATTRIBUTE),
      template.find? (fun x => x.type_ == CKA_VALUE_LEN) = none →
      ¬(data.length = 16 ∨ data.length = 24 ∨ data.length = 32) →
      AesKeyFactory.import_from_wrapped u data template =
        (err_rv CKR_KEY_SIZE_RANGE, List.replicate data.length 0)) ∧
    (∀ (u : KResult Object) (data : List Nat) (template : List CK_ATTRIBUTE)
        (e : CK_ATTRIBUTE) (len : Nat),
      template.find? (fun x => x.type_ == CKA_VALUE_LEN) = some e →
      e.to_ulong = Except.ok len → len ≤ data.length →
      ¬((data.take len).length = 16 ∨ (data.take len).length = 24 ∨ (data.take len).length = 32) →
      AesKeyFactory.import_from_wrapped u data template =
        (err_rv CKR_KEY_SIZE_RANGE, List.replicate (data.take len).length 0)) := by
  refine ⟨?_, ?_, ?_, ?_⟩
  · intro u data template e len hfind hlen hgt
    unfold AesKeyFactory.import_from_wrapped
    rw [hfind]
    dsimp only
    rw [hlen]
    dsimp only
    rw [if_pos hgt]
    rfl
  · intro u data template e len obj hfind hlen hlt hok
    unfold AesKeyFactory.import_from_wrapped at hok
    rw [hfind] at hok
    dsimp only at hok
    rw [hlen] at hok
    dsimp only at hok
    rw [if_neg (by omega), if_pos hlt] at hok
    unfold aesImportTail at hok
    cases hck : check_key_len (data.take len).length with
    | error e2 => rw [hck] at hok; simp at hok
    | ok _ =>
      rw [hck] at hok
      dsimp only at hok
      unfold SecretKeyFactory.import_from_wrapped at hok
      cases u with
      | error e2 => simp at hok
      | ok obj0 =>
        dsimp only at hok
        exact (set_key_ok obj0 (data.take len) obj hok).1
  · intro u data template hfind hbad
    unfold AesKeyFactory.import_from_wrapped
    rw [hfind]
    unfold aesImportTail check_key_len
    rw [if_neg hbad]
    rfl
  · intro u data template e len hfind hlen hle hbad
    unfold AesKeyFactory.import_from_wrapped
    rw [hfind]
    dsimp only
    rw [hlen]
    dsimp only
    rw [if_neg (by omega)]
    by_cases hlt : len < data.length
    · rw [if_pos hlt]
      unfold aesImportTail check_key_len
      rw [if_neg hbad]
      rfl
    · rw [if_neg hlt]
      have heq : data.take len = data := by
        have h2 : len = data.length := by omega
        rw [h2]
        exact List.take_length data
      rw [heq] at hbad ⊢
      unfold aesImportTail check_key_len
      rw [if_neg hbad]
      rfl

/-- The object C6's truncation witness produces. -/
def c6Out : Object :=
  ⟨0, 0, true, [from_bytes CKA_VALUE (List.replicate 16 1), from_ulong CKA_VALUE_LEN 16]⟩

/-- Witness for C6: each of the four rules at a concrete plaintext. -/
theorem aes_import_wrapped_rules_witness :
    (AesKeyFactory.import_from_wrapped (Except.ok Object.new) (List.replicate 16 1)
        [⟨CKA_VALUE_LEN, some (encodeUlong 32), 8⟩] =
      (err_rv CKR_KEY_SIZE_RANGE, List.replicate 16 0)) ∧
    (c6Out.attr_with_type CKA_VALUE =
      some (from_bytes CKA_VALUE ((List.replicate 32 1).take 16))) ∧
    (AesKeyFactory.import_from_wrapped (Except.ok Object.new) (List.replicate 10 1) [] =
      (err_rv CKR_KEY_SIZE_RANGE, List.replicate 10 0)) ∧
    (AesKeyFactory.import_from_wrapped (Except.ok Object.new) (List.replicate 12 1)
        [⟨CKA_VALUE_LEN, some (encodeUlong 8), 8⟩] =
      (err_rv CKR_KEY_SIZE_RANGE, List.replicate ((List.replicate 12 1).take 8).length 0)) :=
  ⟨aes_import_wrapped_rules.1 (Except.ok Object.new) (List.replicate 16 1)
      [⟨CKA_VALUE_LEN, some (encodeUlong 32), 8⟩] ⟨CKA_VALUE_LEN, some (encodeUlong 32), 8⟩ 32
      (by decide) (by decide) (by decide),
   aes_import_wrapped_rules.2.1 (Except.ok Object.new) (List.replicate 32 1)
      [⟨CKA_VALUE_LEN, some (encodeUlong 16), 8⟩] ⟨CKA_VALUE_LEN, some (encodeUlong 16), 8⟩ 16
      c6Out (by decide) (by decide) (by decide) (by decide),
   aes_import_wrapped_rules.2.2.1 (Except.ok Object.new) (List.replicate 10 1) []
      (by decide) (by decide),
   aes_import_wrapped_rules.2.2.2 (Except.ok Object.new) (List.replicate 12 1)
      [⟨CKA_VALUE_LEN, some (encodeUlong 8), 8⟩] ⟨CKA_VALUE_LEN, some (encodeUlong 8), 8⟩ 8
      (by decide) (by decide) (by decide) (by decide)⟩

/-! ## Claim C2: the derived key is the one-shot ciphertext -/

/-- Claim C2: every successful AES encrypt-data derive yields exactly one
object whose CKA_VALUE is the one-shot encryption of the captured data
under the base key's value (with the operation's IV), of exactly the
announced ciphertext length, and whose VALUE_LEN stores that length (a
conflicting template VALUE_LEN would have failed the derive). -/
theorem aes_kdf_derive_value (provider : AesProvider) (op : AesKDFOperation)
    (key : Object) (template : List CK_ATTRIBUTE) (internal : KResult Object)
    (objs : List Object) (op2 : AesKDFOperation)
    (h : AesKDFOperation.derive provider op key template internal = (Except.ok objs, op2)) :
    ∃ obj kv, objs = [obj] ∧
      key.get_attr_as_bytes CKA_VALUE = Except.ok kv ∧
      obj.attr_with_type CKA_VALUE =
        some (from_bytes CKA_VALUE ((provider op.prf kv op.iv).enc op.data)) ∧
      ((provider op.prf kv op.iv).enc op.data).length =
        (provider op.prf kv op.iv).encLen op.data.length ∧
      (∃ a, obj.attr_with_type CKA_VALUE_LEN = some a ∧
        a.get_value = encodeUlong ((provider op.prf kv op.iv).enc op.data).length) := by
  unfold AesKDFOperation.derive at h
  by_cases hf : op.finalized
  · rw [if_pos hf] at h
    simp [err_rv] at h
  · rw [if_neg hf] at h
    have hbody : aesKdfDeriveBody provider op key template internal = Except.ok objs := by
      simpa using congrArg Prod.fst h
    unfold aesKdfDeriveBody at hbody
    cases hops : key.check_key_ops CKO_SECRET_KEY CKK_AES CKA_DERIVE with
    | error e => rw [hops] at hbody; simp at hbody
    | ok u1 =>
      rw [hops] at hbody
      dsimp only at hbody
      cases hfac : get_obj_factory_from_key_template template with
      | error e => rw [hfac] at hbody; simp at hbody
      | ok u2 =>
        rw [hfac] at hbody
        dsimp only at hbody
        cases hint : AesKeyFactory.default_object_derive internal with
        | error e => rw [hint] at hbody; simp at hbody
        | ok obj0 =>
          rw [hint] at hbody
          dsimp only at hbody
          unfold AesOperation.encrypt_new at hbody
          cases hkv : key.get_attr_as_bytes CKA_VALUE with
          | error e => rw [hkv] at hbody; simp at hbody
          | ok kv =>
            rw [hkv] at hbody
            dsimp only at hbody
            by_cases hsz : ((provider op.prf kv op.iv).enc op.data).length ≠
                (provider op.prf kv op.iv).encLen op.data.length
            · rw [if_pos hsz] at hbody
              simp [err_rv] at hbody
            · rw [if_neg hsz] at hbody
              cases hsk : AesKeyFactory.set_key obj0 ((provider op.prf kv op.iv).enc op.data) with
              | error e => rw [hsk] at hbody; simp at hbody
              | ok obj2 =>
                rw [hsk] at hbody
                dsimp only at hbody
                have hobjs : objs = [obj2] := by simpa using hbody.symm
                obtain ⟨h1, h2, _⟩ := set_key_ok obj0 _ obj2 hsk
                exact ⟨obj2, kv, hobjs, rfl, h1, not_ne_iff.mp hsz, h2⟩

/-- The base key for C2's witness: a derivable AES secret key. -/
def keyW : Object :=
  ⟨0, 0, false,
    [⟨CKA_CLASS, AttrType.NumType, encodeUlong CKO_SECRET_KEY⟩,
     ⟨CKA_KEY_TYPE, AttrType.NumType, encodeUlong CKK_AES⟩,
     ⟨CKA_DERIVE, AttrType.BoolType, [1]⟩,
     ⟨CKA_VALUE, AttrType.BytesType, List.replicate 16 5⟩]⟩

/-- The derived-key template for C2's witness. -/
def tmplW : List CK_ATTRIBUTE :=
  [⟨CKA_CLASS, some (encodeUlong CKO_SECRET_KEY), 8⟩,
   ⟨CKA_KEY_TYPE, some (encodeUlong CKK_AES), 8⟩]

/-- A fresh ECB KDF operation over 16 zero bytes for C2's witness. -/
def opW : AesKDFOperation := ⟨CKM_AES_ECB, false, [], List.replicate 16 0⟩

/-- The object C2's witness derive produces. -/
def derivedW : Object :=
  ⟨0, 0, true, [from_bytes CKA_VALUE (List.replicate 16 1), from_ulong CKA_VALUE_LEN 16]⟩

/-- Witness for C2 at a concrete provider, base key and operation. -/
theorem aes_kdf_derive_value_witness :
    ∃ obj kv, ([derivedW] : List Object) = [obj] ∧
      keyW.get_attr_as_bytes CKA_VALUE = Except.ok kv ∧
      obj.attr_with_type CKA_VALUE =
        some (from_bytes CKA_VALUE ((provW opW.prf kv opW.iv).enc opW.data)) ∧
      ((provW opW.prf kv opW.iv).enc opW.data).length =
        (provW opW.prf kv opW.iv).encLen opW.data.length ∧
      (∃ a, obj.attr_with_type CKA_VALUE_LEN = some a ∧
        a.get_value = encodeUlong ((provW opW.prf kv opW.iv).enc opW.data).length) :=
  aes_kdf_derive_value provW opW keyW tmplW (Except.ok Object.new) [derivedW]
    ⟨CKM_AES_ECB, true, [], List.replicate 16 0⟩ (by decide)

/-! ## SQLite storage (storage/sqlite.rs), modelled as a functional state:
the objects table is a row list in insertion order, the cache an
association list keyed by the uid bytes. -/

/-- A row of the objects table (id, attr, val, enc). -/
structure DbRow where
  id : Nat
  attr : Nat
  val : List Nat
  enc : Nat
deriving DecidableEq, Repr

abbrev DB := List DbRow

/-- The MAX_ID query: IFNULL(MAX(id), 0). -/
def maxId (db : DB) : Nat := db.foldl (fun m r => max m r.id) 0

/-- The SEARCH_OBJ_ID query through query_row: the id of the first row
binding the uid, 0 when there is none. -/
def searchObjId (db : DB) (uid : List Nat) : Nat :=
  match db.find? (fun r => r.attr == CKA_UNIQUE_ID && r.val == uid) with
  | some r => r.id
  | none => 0

/-- SqliteStorage::delete_object: look up the object id bound to the uid,
drop that object's rows, report the id (0 when none was found). -/
def delete_object (db : DB) (uid : List Nat) : DB × Nat :=
  let objid := searchObjId db uid
  if objid ≠ 0 then (db.filter (fun r => ! (r.id == objid)), objid) else (db, objid)

/-- INSERT OR REPLACE honoring UNIQUE(id, attr): the conflicting row is
removed and the new row appended. -/
def upsertRow (db : DB) (row : DbRow) : DB :=
  db.filter (fun r => ! (r.id == row.id && r.attr == row.attr)) ++ [row]

/-- SqliteStorage::store_object: delete the uid's rows, reuse the freed id
or allocate MAX(id)+1 when none existed, then insert one row per
attribute. -/
def store_object (db : DB) (uid : List Nat) (obj : Object) : DB :=
  let r := delete_object db uid
  let objid := if r.2 = 0 then maxId r.1 + 1 else r.2
  obj.attributes.foldl (fun d a => upsertRow d ⟨objid, a.get_type, a.get_value, 0⟩) r.1

abbrev Cache := List (List Nat × Object)

/-- SqliteStorage::cache_obj: clear the modified flag; when replacing, keep
the previous entry's handle and session. -/
def cache_obj (cache : Cache) (uid : List Nat) (obj : Object) : Cache :=
  let obj1 := obj.reset_modified
  match cache.find? (fun p => p.1 == uid) with
  | some p =>
    cache.map (fun q =>
      if q.1 == uid then (q.1, (obj1.set_handle p.2.handle).set_session p.2.session) else q)
  | none => cache ++ [(uid, obj1)]

structure SqliteStorage where
  db : DB
  cache : Cache
deriving DecidableEq, Repr

/-- SqliteStorage::store: persist token objects in one transaction (delete
the uid's old rows, insert one row per attribute), then always cache. -/
def SqliteStorage.store (st : SqliteStorage) (uid : List Nat) (obj : Object) :
    KResult SqliteStorage :=
  Except.ok
    { db := if obj.is_token then store_object st.db uid obj else st.db,
      cache := cache_obj st.cache uid obj }

/-- A database attribute rebuilt from a row (through CK_ATTRIBUTE and
to_attribute, whose kind comes from the id schema). -/
def rowAttr (r : DbRow) : Attribute := ⟨r.attr, attrTypeOf r.attr, r.val⟩

/-- Apply a function to the last element, none when the list is empty (the
last_mut access of rows_to_objects). -/
def modifyLast (f : Object → Object) : List Object → Option (List Object)
  | [] => none
  | [x] => some [f x]
  | x :: y :: rest => (modifyLast f (y :: rest)).map (fun l => x :: l)

/-- The rows_to_objects loop: push a fresh object whenever the row id
changes (starting from the sentinel id 0), then set the row's attribute on
the last object; a missing last object is GENERAL_ERROR. -/
def rows_to_objects_aux : List DbRow → Nat → List Object → KResult (List Object)
  | [], _, objs => Except.ok objs
  | r :: rest, objid, objs =>
    match modifyLast (fun o => o.set_attr (rowAttr r))
        (if objid ≠ r.id then objs ++ [Object.new] else objs) with
    | some objs2 => rows_to_objects_aux rest (if objid ≠ r.id then r.id else objid) objs2
    | none => err_rv CKR_GENERAL_ERROR

/-- SqliteStorage::rows_to_objects. -/
def rows_to_objects (rows : List DbRow) : KResult (List Object) :=
  rows_to_objects_aux rows 0 []

/-- The SEARCH_BY_SINGLE_ATTR query: every row of every object id that
binds the attribute to the value, in table order. -/
def search_single_attr (db : DB) (attrId : Nat) (v : List Nat) : List DbRow :=
  let ids := (db.filter (fun r => r.attr == attrId && r.val == v)).map (fun r => r.id)
  db.filter (fun r => ids.contains r.id)

/-- SqliteStorage::search_by_unique_id: not found without matches, the
object for exactly one match, GENERAL_ERROR for several. -/
def search_by_unique_id (db : DB) (uid : List Nat) : KResult Object :=
  match rows_to_objects (search_single_attr db CKA_UNIQUE_ID uid) with
  | Except.error e => Except.error e
  | Except.ok objs =>
    match objs with
    | [] => Except.error (KError.NotFound uid)
    | [o] => Except.ok o
    | _ => err_rv CKR_GENERAL_ERROR

/-- SqliteStorage::get_cached_by_uid. -/
def SqliteStorage.get_cached_by_uid (st : SqliteStorage) (uid : List Nat) : KResult Object :=
  match st.cache.find? (fun p => p.1 == uid) with
  | some p => Except.ok p.2
  | none => Except.error (KError.NotFound uid)

/-- SqliteStorage::fetch_by_uid: consult the database only for uncached or
token-resident uids, then answer from the cache. Returns the object with
the updated storage state. -/
def SqliteStorage.fetch_by_uid (st : SqliteStorage) (uid : List Nat) :
    KResult (Object × SqliteStorage) :=
  let is_token := match st.get_cached_by_uid uid with
    | Except.ok obj => obj.is_token
    | Except.error _ => true
  match (if is_token then
      match search_by_unique_id st.db uid with
      | Except.error e => Except.error e
      | Except.ok obj => Except.ok { st with cache := cache_obj st.cache uid obj }
    else Except.ok st : KResult SqliteStorage) with
  | Except.error e => Except.error e
  | Except.ok st2 =>
    match st2.get_cached_by_uid uid with
    | Except.ok o => Except.ok (o, st2)
    | Except.error e => Except.error e

/-- SqliteStorage::get_cached_by_uid_mut: load from the database only when
the uid is not cached. Returns the object with the updated storage
state. -/
def SqliteStorage.get_cached_by_uid_mut (st : SqliteStorage) (uid : List Nat) :
    KResult (Object × SqliteStorage) :=
  match (if (st.cache.find? (fun p => p.1 == uid)).isNone then
      match search_by_unique_id st.db uid with
      | Except.error e => Except.error e
      | Except.ok obj => Except.ok { st with cache := cache_obj st.cache uid obj }
    else Except.ok st : KResult SqliteStorage) with
  | Except.error e => Except.error e
  | Except.ok st2 =>
    match st2.cache.find? (fun p => p.1 == uid) with
    | some p => Except.ok (p.2, st2)
    | none => Except.error (KError.NotFound uid)

end Kryoptic

namespace Kryoptic

/-- Folding max over the rows never goes below the seed. -/
lemma foldl_max_le_init (db : DB) : ∀ init : Nat, init ≤ db.foldl (fun m x => max m x.id) init := by
  induction db with
  | nil => intro init; simp
  | cons d rest ih =>
    intro init
    simp only [List.foldl_cons]
    exact le_trans (le_max_left _ _) (ih (max init d.id))

/-- Every row's id is bounded by the folded max. -/
lemma le_foldl_max (r : DbRow) : ∀ (db : DB), r ∈ db →
    ∀ init : Nat, r.id ≤ db.foldl (fun m x => max m x.id) init := by
  intro db
  induction db with
  | nil => intro h; simp at h
  | cons d rest ih =>
    intro h init
    simp only [List.foldl_cons]
    rcases List.mem_cons.mp h with h2 | h2
    · subst h2
      exact le_trans (le_max_right init r.id) (foldl_max_le_init rest (max init r.id))
    · exact ih h2 (max init d.id)

/-- Every row's id is at most MAX(id). -/
lemma le_maxId (db : DB) (r : DbRow) (hr : r ∈ db) : r.id ≤ maxId db :=
  le_foldl_max r db hr 0

lemma mem_upsertRow_self (db : DB) (row : DbRow) : row ∈ upsertRow db row := by
  unfold upsertRow
  exact List.mem_append_right _ (List.mem_singleton.mpr rfl)

lemma mem_upsertRow_of (db : DB) (row r : DbRow) (hr : r ∈ db)
    (hne : ¬(r.id = row.id ∧ r.attr = row.attr)) : r ∈ upsertRow db row := by
  unfold upsertRow
  apply List.mem_append_left
  apply List.mem_filter.mpr ⟨hr, ?_⟩
  simpa using not_and_or.mp hne

lemma mem_of_upsertRow (db : DB) (row r : DbRow) (hr : r ∈ upsertRow db row) :
    r ∈ db ∨ r = row := by
  unfold upsertRow at hr
  rcases List.mem_append.mp hr with h | h
  · exact Or.inl (List.mem_filter.mp h).1
  · exact Or.inr (List.mem_singleton.mp h)

/-- A row that conflicts with none of the inserted attributes survives the
attribute fold. -/
lemma mem_foldl_upsert_of (objid : Nat) :
    ∀ (attrs : List Attribute) (db : DB) (r : DbRow), r ∈ db →
      (∀ a ∈ attrs, ¬(r.id = objid ∧ r.attr = a.get_type)) →
      r ∈ attrs.foldl (fun d a => upsertRow d ⟨objid, a.get_type, a.get_value, 0⟩) db := by
  intro attrs
  induction attrs with
  | nil => intro db r hr _; simpa using hr
  | cons a rest ih =>
    intro db r hr hna
    simp only [List.foldl_cons]
    refine ih _ r (mem_upsertRow_of _ _ _ hr ?_) (fun a2 h2 => hna a2 (List.mem_cons_of_mem a h2))
    exact hna a (List.mem_cons_self a rest)

/-- A row of the folded table is an original survivor or one of the
inserted attribute rows. -/
lemma mem_foldl_upsert_origin (objid : Nat) :
    ∀ (attrs : List Attribute) (db : DB) (r : DbRow),
      r ∈ attrs.foldl (fun d a => upsertRow d ⟨objid, a.get_type, a.get_value, 0⟩) db →
      r ∈ db ∨ ∃ a ∈ attrs, r = ⟨objid, a.get_type, a.get_value, 0⟩ := by
  intro attrs
  induction attrs with
  | nil => intro db r hr; exact Or.inl (by simpa using hr)
  | cons a rest ih =>
    intro db r hr
    simp only [List.foldl_cons] at hr
    rcases ih _ r hr with h | ⟨a2, ha2, he⟩
    · rcases mem_of_upsertRow _ _ _ h with h2 | h2
      · exact Or.inl h2
      · exact Or.inr ⟨a, List.mem_cons_self a rest, h2⟩
    · exact Or.inr ⟨a2, List.mem_cons_of_mem a ha2, he⟩

/-- With attribute types unique, every attribute's row lands in the folded
table. -/
lemma mem_foldl_upsert_insert (objid : Nat) :
    ∀ (attrs : List Attribute) (db : DB) (a : Attribute), a ∈ attrs →
      (attrs.map Attribute.get_type).Nodup →
      (⟨objid, a.get_type, a.get_value, 0⟩ : DbRow) ∈
        attrs.foldl (fun d a => upsertRow d ⟨objid, a.get_type, a.get_value, 0⟩) db := by
  intro attrs
  induction attrs with
  | nil => intro db a ha; simp at ha
  | cons b rest ih =>
    intro db a ha hnd
    have hnd2 : (b.get_type :: rest.map Attribute.get_type).Nodup := by simpa using hnd
    simp only [List.foldl_cons]
    rcases List.mem_cons.mp ha with h | h
    · subst h
      refine mem_foldl_upsert_of objid rest _ _ (mem_upsertRow_self _ _) ?_
      intro a2 h2 hcon
      exact (List.nodup_cons.mp hnd2).1 (by
        rw [show (⟨objid, a.get_type, a.get_value, 0⟩ : DbRow).attr = a.get_type from rfl] at hcon
        rw [hcon.2]
        exact List.mem_map_of_mem Attribute.get_type h2)
    · exact ih _ a h (List.nodup_cons.mp hnd2).2

/-- The replacement map of cache_obj keeps the entry findable. -/
lemma find_map_replace (uid : List Nat) (o2 : Object) :
    ∀ (l : Cache) (p : List Nat × Object),
      l.find? (fun q => q.1 == uid) = some p →
      (l.map (fun q => if q.1 == uid then (q.1, o2) else q)).find? (fun q => q.1 == uid) =
        some (p.1, o2) := by
  intro l
  induction l with
  | nil => intro p h; simp at h
  | cons x rest ih =>
    intro p h
    cases hx : (x.1 == uid) with
    | true =>
      simp only [List.find?, hx] at h
      injection h with h
      subst h
      simp [List.map_cons, List.find?, hx]
    | false =>
      simp only [List.find?, hx] at h
      simp only [List.map_cons]
      rw [if_neg (by simp [hx])]
      simp only [List.find?, hx]
      exact ih p h

/-- After cache_obj the uid maps to the stored object: same attributes,
modified cleared. -/
lemma find_cache_obj (cache : Cache) (uid : List Nat) (obj : Object) :
    ∃ o2, (cache_obj cache uid obj).find? (fun p => p.1 == uid) = some (uid, o2) ∧
      o2.attributes = obj.attributes ∧ o2.modified = false := by
  unfold cache_obj
  cases hf : cache.find? (fun p => p.1 == uid) with
  | none =>
    refine ⟨obj.reset_modified, ?_, rfl, rfl⟩
    rw [List.find?_append, hf]
    simp [List.find?]
  | some p =>
    have hkey : p.1 = uid := by
      have := List.find?_some hf
      simpa using this
    refine ⟨(obj.reset_modified.set_handle p.2.handle).set_session p.2.session, ?_, rfl, rfl⟩
    have := find_map_replace uid ((obj.reset_modified.set_handle p.2.handle).set_session p.2.session) cache p hf
    rw [this, hkey]

end Kryoptic

namespace Kryoptic

/-- Claim C5 (amended): for a token object, store persists it and always
installs it in the cache; when no rows carry the uid the attribute rows are
inserted under the fresh id MAX(id)+1 (an id no existing row has), but when
rows carry the uid the old object's id is reused: its rows are deleted and
exactly one row per attribute is re-inserted under that same id. -/
theorem store_amended (st : SqliteStorage) (uid : List Nat) (obj : Object) (st2 : SqliteStorage)
    (hT : obj.is_token = true)
    (hnd : (obj.attributes.map Attribute.get_type).Nodup)
    (h : SqliteStorage.store st uid obj = Except.ok st2) :
    ((∀ r ∈ st.db, ¬(r.attr = CKA_UNIQUE_ID ∧ r.val = uid)) →
      (∀ r ∈ st.db, r.id ≠ maxId st.db + 1) ∧
      (∀ a ∈ obj.attributes,
        (⟨maxId st.db + 1, a.get_type, a.get_value, 0⟩ : DbRow) ∈ st2.db)) ∧
    (∀ x, searchObjId st.db uid = x → x ≠ 0 →
      (∀ a ∈ obj.attributes, (⟨x, a.get_type, a.get_value, 0⟩ : DbRow) ∈ st2.db) ∧
      (∀ r ∈ st2.db, r.id = x →
        ∃ a ∈ obj.attributes, r = ⟨x, a.get_type, a.get_value, 0⟩)) ∧
    (∃ o2, st2.cache.find? (fun p => p.1 == uid) = some (uid, o2) ∧
      o2.attributes = obj.attributes ∧ o2.modified = false) := by
  unfold SqliteStorage.store at h
  rw [hT] at h
  simp only [if_true] at h
  injection h with h
  subst h
  refine ⟨?_, ?_, ?_⟩
  · intro hno
    have hs : searchObjId st.db uid = 0 := by
      unfold searchObjId
      have hfn : st.db.find? (fun r => r.attr == CKA_UNIQUE_ID && r.val == uid) = none := by
        apply List.find?_eq_none.mpr
        intro r hr
        have h3 : r.attr = CKA_UNIQUE_ID → ¬ r.val = uid := fun h1 h2 => hno r hr ⟨h1, h2⟩
        simpa using h3
      rw [hfn]
    constructor
    · intro r hr
      have := le_maxId st.db r hr
      omega
    · intro a ha
      show _ ∈ store_object st.db uid obj
      unfold store_object delete_object
      rw [hs]
      simp only [ne_eq, not_true_eq_false, if_false, ite_false]
      exact mem_foldl_upsert_insert (maxId st.db + 1) obj.attributes st.db a ha hnd
  · intro x hx hx0
    have hmem2 : ∀ a ∈ obj.attributes,
        (⟨x, a.get_type, a.get_value, 0⟩ : DbRow) ∈ store_object st.db uid obj := by
      intro a ha
      unfold store_object delete_object
      rw [hx]
      simp only [ne_eq, hx0, not_false_eq_true, if_true, if_neg hx0]
      exact mem_foldl_upsert_insert x obj.attributes _ a ha hnd
    refine ⟨hmem2, ?_⟩
    intro r hr hrid
    have : r ∈ store_object st.db uid obj := hr
    unfold store_object delete_object at this
    rw [hx] at this
    simp only [ne_eq, hx0, not_false_eq_true, if_true, if_neg hx0] at this
    rcases mem_foldl_upsert_origin x obj.attributes _ r this with h2 | h2
    · exfalso
      have := (List.mem_filter.mp h2).2
      simp [hrid] at this
    · exact h2
  · exact find_cache_obj st.cache uid obj

end Kryoptic

namespace Kryoptic

/-- modifyLast applied to a snoc rewrites the last element. -/
lemma modifyLast_concat (f : Object → Object) :
    ∀ (l : List Object) (x : Object), modifyLast f (l ++ [x]) = some (l ++ [f x]) := by
  intro l
  induction l with
  | nil => intro x; rfl
  | cons y rest ih =>
    intro x
    cases rest with
    | nil => rfl
    | cons z rest2 =>
      show (modifyLast f ((z :: rest2) ++ [x])).map (fun l => y :: l) = _
      rw [ih x]
      rfl

/-- A successful modifyLast preserves length and non-emptiness. -/
lemma modifyLast_some (f : Object → Object) (l l2 : List Object)
    (h : modifyLast f l = some l2) : l2.length = l.length ∧ l2 ≠ [] := by
  rcases l.eq_nil_or_concat with rfl | ⟨init, x, hl⟩
  · simp [modifyLast] at h
  · subst hl
    rw [List.concat_eq_append, modifyLast_concat] at h
    injection h with h
    subst h
    constructor <;> simp

/-- The only error rows_to_objects_aux raises is GENERAL_ERROR. -/
lemma aux_error_code : ∀ (rows : List DbRow) (objid : Nat) (objs : List Object) (e : KError),
    rows_to_objects_aux rows objid objs = Except.error e →
    e = KError.RvError CKR_GENERAL_ERROR := by
  intro rows
  induction rows with
  | nil => intro objid objs e h; simp [rows_to_objects_aux] at h
  | cons r rest ih =>
    intro objid objs e h
    unfold rows_to_objects_aux at h
    cases hm : modifyLast (fun o => o.set_attr (rowAttr r))
        (if objid ≠ r.id then objs ++ [Object.new] else objs) with
    | some objs2 =>
      rw [hm] at h
      dsimp only at h
      exact ih _ _ e h
    | none =>
      rw [hm] at h
      unfold err_rv at h
      injection h with h
      exact h.symm

/-- The object count never shrinks along the loop. -/
lemma aux_length_mono : ∀ (rows : List DbRow) (objid : Nat) (objs res : List Object),
    rows_to_objects_aux rows objid objs = Except.ok res → objs.length ≤ res.length := by
  intro rows
  induction rows with
  | nil =>
    intro objid objs res h
    simp only [rows_to_objects_aux] at h
    injection h with h
    subst h
    exact le_refl _
  | cons r rest ih =>
    intro objid objs res h
    unfold rows_to_objects_aux at h
    by_cases hid : objid ≠ r.id
    · simp only [if_pos hid] at h
      rw [modifyLast_concat] at h
      dsimp only at h
      have := ih _ _ _ h
      simp at this
      omega
    · simp only [if_neg hid] at h
      cases hm : modifyLast (fun o => o.set_attr (rowAttr r)) objs with
      | none => rw [hm] at h; simp [err_rv] at h
      | some objs2 =>
        rw [hm] at h
        dsimp only at h
        have h1 := ih _ _ _ h
        have h2 := (modifyLast_some _ _ _ hm).1
        omega

/-- A row with a different id than the running one forces at least one more
object. -/
lemma aux_length_grow : ∀ (rows : List DbRow) (objid : Nat) (objs res : List Object),
    (∃ r ∈ rows, r.id ≠ objid) →
    rows_to_objects_aux rows objid objs = Except.ok res → objs.length + 1 ≤ res.length := by
  intro rows
  induction rows with
  | nil => intro objid objs res hex _; simp at hex
  | cons r rest ih =>
    intro objid objs res hex h
    unfold rows_to_objects_aux at h
    by_cases hid : objid ≠ r.id
    · simp only [if_pos hid] at h
      rw [modifyLast_concat] at h
      dsimp only at h
      have := aux_length_mono _ _ _ _ h
      simp at this
      omega
    · simp only [if_neg hid] at h
      have hoe : objid = r.id := by omega
      obtain ⟨rx, hrx, hne⟩ := hex
      have hrx2 : rx ∈ rest := by
        rcases List.mem_cons.mp hrx with h2 | h2
        · exfalso; rw [h2] at hne; exact hne hoe.symm
        · exact h2
      cases hm : modifyLast (fun o => o.set_attr (rowAttr r)) objs with
      | none => rw [hm] at h; simp [err_rv] at h
      | some objs2 =>
        rw [hm] at h
        dsimp only at h
        have h1 := ih _ _ _ ⟨rx, hrx2, hne⟩ h
        have h2 := (modifyLast_some _ _ _ hm).1
        omega

/-- Over rows of a single id the loop succeeds and creates no new object. -/
lemma aux_single_id (d : Nat) : ∀ (rows : List DbRow) (objs : List Object),
    (∀ r ∈ rows, r.id = d) → objs ≠ [] →
    ∃ res, rows_to_objects_aux rows d objs = Except.ok res ∧ res.length = objs.length := by
  intro rows
  induction rows with
  | nil => intro objs _ _; exact ⟨objs, rfl, rfl⟩
  | cons r rest ih =>
    intro objs hall hne
    unfold rows_to_objects_aux
    have hid : r.id = d := hall r (List.mem_cons_self r rest)
    have hcond : ¬(d ≠ r.id) := by omega
    simp only [if_neg hcond]
    rcases objs.eq_nil_or_concat with rfl | ⟨init, x, hl⟩
    · exact absurd rfl hne
    · subst hl
      rw [List.concat_eq_append, modifyLast_concat]
      dsimp only
      obtain ⟨res, hres, hlen⟩ :=
        ih (init ++ [(fun o => o.set_attr (rowAttr r)) x])
          (fun r2 h2 => hall r2 (List.mem_cons_of_mem r h2)) (by simp)
      exact ⟨res, hres, by simpa using hlen⟩

end Kryoptic

namespace Kryoptic

/-- Every uid row of the table shows up in the SEARCH_BY_SINGLE_ATTR rows. -/
lemma mem_search_single (db : DB) (uid : List Nat) (r : DbRow) (hr : r ∈ db)
    (ha : r.attr = CKA_UNIQUE_ID) (hv : r.val = uid) :
    r ∈ search_single_attr db CKA_UNIQUE_ID uid := by
  unfold search_single_attr
  apply List.mem_filter.mpr ⟨hr, ?_⟩
  have hmem : r.id ∈ (db.filter (fun r => r.attr == CKA_UNIQUE_ID && r.val == uid)).map
      (fun r => r.id) :=
    List.mem_map_of_mem _ (List.mem_filter.mpr ⟨hr, by simp [ha, hv]⟩)
  exact List.elem_eq_true_of_mem hmem

/-- When every uid row has object id d, every returned row has id d. -/
lemma search_single_id (db : DB) (uid : List Nat) (d : Nat)
    (hall : ∀ r ∈ db, r.attr = CKA_UNIQUE_ID → r.val = uid → r.id = d) :
    ∀ r ∈ search_single_attr db CKA_UNIQUE_ID uid, r.id = d := by
  intro r hr
  unfold search_single_attr at hr
  have h2 := (List.mem_filter.mp hr).2
  have h3 : r.id ∈ (db.filter (fun r => r.attr == CKA_UNIQUE_ID && r.val == uid)).map
      (fun r => r.id) := List.mem_of_elem_eq_true h2
  obtain ⟨r2, hr2, hid⟩ := List.mem_map.mp h3
  have h4 := List.mem_filter.mp hr2
  have h5 : r2.attr = CKA_UNIQUE_ID ∧ r2.val = uid := by simpa using h4.2
  rw [← hid]
  exact hall r2 h4.1 h5.1 h5.2

/-- Without a uid row the query returns nothing. -/
lemma search_single_empty (db : DB) (uid : List Nat)
    (hno : ∀ r ∈ db, ¬(r.attr = CKA_UNIQUE_ID ∧ r.val = uid)) :
    search_single_attr db CKA_UNIQUE_ID uid = [] := by
  unfold search_single_attr
  have hf : db.filter (fun r => r.attr == CKA_UNIQUE_ID && r.val == uid) = [] := by
    apply List.filter_eq_nil_iff.mpr
    intro r hr
    have h3 : r.attr = CKA_UNIQUE_ID → ¬ r.val = uid := fun h1 h2 => hno r hr ⟨h1, h2⟩
    simpa using h3
  rw [hf]
  simp [List.contains]

/-- Two uid rows with distinct object ids make search_by_unique_id fail
with GENERAL_ERROR. -/
lemma search_uid_multi (db : DB) (uid : List Nat) (r1 r2 : DbRow)
    (h1 : r1 ∈ db) (h2 : r2 ∈ db)
    (ha1 : r1.attr = CKA_UNIQUE_ID) (hv1 : r1.val = uid)
    (ha2 : r2.attr = CKA_UNIQUE_ID) (hv2 : r2.val = uid)
    (hne : r1.id ≠ r2.id) :
    search_by_unique_id db uid = err_rv CKR_GENERAL_ERROR := by
  have hm1 := mem_search_single db uid r1 h1 ha1 hv1
  have hm2 := mem_search_single db uid r2 h2 ha2 hv2
  unfold search_by_unique_id
  cases hro : rows_to_objects (search_single_attr db CKA_UNIQUE_ID uid) with
  | error e =>
    rw [aux_error_code _ _ _ e hro]
    rfl
  | ok objs =>
    have hlen : 2 ≤ objs.length := by
      cases hrows : search_single_attr db CKA_UNIQUE_ID uid with
      | nil => rw [hrows] at hm1; simp at hm1
      | cons r rest =>
        rw [hrows] at hro hm1 hm2
        unfold rows_to_objects rows_to_objects_aux at hro
        by_cases h0 : (0 : Nat) ≠ r.id
        · simp only [if_pos h0, List.nil_append] at hro
          have hml : modifyLast (fun o => o.set_attr (rowAttr r)) [Object.new] =
              some [Object.new.set_attr (rowAttr r)] := rfl
          rw [hml] at hro
          dsimp only at hro
          have hex : ∃ rx ∈ rest, rx.id ≠ r.id := by
            by_cases hc : r1.id = r.id
            · refine ⟨r2, ?_, by omega⟩
              rcases List.mem_cons.mp hm2 with hh | hh
              · exfalso; rw [hh] at hne; omega
              · exact hh
            · refine ⟨r1, ?_, hc⟩
              rcases List.mem_cons.mp hm1 with hh | hh
              · exfalso; rw [hh] at hc; exact hc rfl
              · exact hh
          have := aux_length_grow rest r.id [Object.new.set_attr (rowAttr r)] objs
            (by obtain ⟨rx, hrx, hne2⟩ := hex; exact ⟨rx, hrx, hne2⟩) hro
          simpa using this
        · simp only [if_neg h0] at hro
          have hml : modifyLast (fun o => o.set_attr (rowAttr r)) [] = none := rfl
          rw [hml] at hro
          simp [err_rv] at hro
    match objs, hlen with
    | o1 :: o2 :: rest, _ => rfl

/-- Without a uid row search_by_unique_id reports not-found. -/
lemma search_uid_none (db : DB) (uid : List Nat)
    (hno : ∀ r ∈ db, ¬(r.attr = CKA_UNIQUE_ID ∧ r.val = uid)) :
    search_by_unique_id db uid = Except.error (KError.NotFound uid) := by
  unfold search_by_unique_id
  rw [search_single_empty db uid hno]
  rfl

/-- With exactly one (nonzero) object id carrying the uid, the search
returns an object. -/
lemma search_uid_one (db : DB) (uid : List Nat) (d : Nat) (hd : d ≠ 0)
    (hex : ∃ r ∈ db, r.attr = CKA_UNIQUE_ID ∧ r.val = uid ∧ r.id = d)
    (hall : ∀ r ∈ db, r.attr = CKA_UNIQUE_ID → r.val = uid → r.id = d) :
    ∃ o, search_by_unique_id db uid = Except.ok o := by
  obtain ⟨r0, hr0, ha0, hv0, hid0⟩ := hex
  have hm0 := mem_search_single db uid r0 hr0 ha0 hv0
  have hids := search_single_id db uid d hall
  unfold search_by_unique_id
  cases hrows : search_single_attr db CKA_UNIQUE_ID uid with
  | nil => rw [hrows] at hm0; simp at hm0
  | cons r rest =>
    rw [hrows] at hids
    have hrid : r.id = d := hids r (List.mem_cons_self r rest)
    unfold rows_to_objects rows_to_objects_aux
    have h0 : (0 : Nat) ≠ r.id := by omega
    simp only [if_pos h0, List.nil_append]
    have hml : modifyLast (fun o => o.set_attr (rowAttr r)) [Object.new] =
        some [Object.new.set_attr (rowAttr r)] := rfl
    rw [hml]
    dsimp only
    obtain ⟨res, hres, hlen⟩ := aux_single_id r.id rest [Object.new.set_attr (rowAttr r)]
      (fun r2 h2 => by rw [hids r2 (List.mem_cons_of_mem r h2), hrid]) (by simp)
    rw [hres]
    match res, hlen with
    | [o], _ => exact ⟨o, rfl⟩

end Kryoptic

namespace Kryoptic

/-- After cache_obj on a cache without the uid, the uid is findable and
bound to the reset object. -/
lemma find_after_cache_obj (cache : Cache) (uid : List Nat) (o : Object)
    (hc : cache.find? (fun p => p.1 == uid) = none) :
    (cache_obj cache uid o).find? (fun p => p.1 == uid) = some (uid, o.reset_modified) := by
  unfold cache_obj
  rw [hc]
  rw [List.find?_append, hc]
  simp [List.find?]

/-- With the uid uncached, both fetch_by_uid and get_cached_by_uid_mut just
relay the database search: its error verbatim, or its object (modulo the
cleared modified flag) alongside the updated cache. -/
lemma fetch_uncached (st : SqliteStorage) (uid : List Nat)
    (hc : st.cache.find? (fun p => p.1 == uid) = none) :
    (∀ e, search_by_unique_id st.db uid = Except.error e →
      st.fetch_by_uid uid = Except.error e ∧
      st.get_cached_by_uid_mut uid = Except.error e) ∧
    (∀ o, search_by_unique_id st.db uid = Except.ok o →
      st.fetch_by_uid uid =
        Except.ok (o.reset_modified, { st with cache := cache_obj st.cache uid o }) ∧
      st.get_cached_by_uid_mut uid =
        Except.ok (o.reset_modified, { st with cache := cache_obj st.cache uid o })) := by
  constructor
  · intro e hs
    constructor
    · unfold SqliteStorage.fetch_by_uid SqliteStorage.get_cached_by_uid
      rw [hc]
      dsimp only
      rw [hs, if_pos rfl]
    · unfold SqliteStorage.get_cached_by_uid_mut
      rw [hc]
      rw [hs]
      simp only [Option.isNone_none]
      rw [if_pos trivial]
  · intro o hs
    constructor
    · unfold SqliteStorage.fetch_by_uid SqliteStorage.get_cached_by_uid
      rw [hc]
      dsimp only
      rw [hs, if_pos rfl]
      dsimp only
      rw [find_after_cache_obj st.cache uid o hc]
    · unfold SqliteStorage.get_cached_by_uid_mut
      rw [hc]
      rw [hs]
      simp only [Option.isNone_none]
      rw [if_pos trivial]
      dsimp only
      rw [find_after_cache_obj st.cache uid o hc]

/-- Claim C10 (amended): provided the uid is not in the in-memory cache,
fetch_by_uid and get_cached_by_uid_mut fail with GENERAL_ERROR when rows of
more than one object id carry the UNIQUE_ID value, fail with a not-found
error when no row carries it, and return an object when exactly one nonzero
object id carries it; a cached uid is answered from the cache without
consulting the database. -/
theorem fetch_by_uid_amended (st : SqliteStorage) (uid : List Nat)
    (hc : st.cache.find? (fun p => p.1 == uid) = none) :
    (∀ r1 r2, r1 ∈ st.db → r2 ∈ st.db →
      r1.attr = CKA_UNIQUE_ID → r1.val = uid → r2.attr = CKA_UNIQUE_ID → r2.val = uid →
      r1.id ≠ r2.id →
      st.fetch_by_uid uid = err_rv CKR_GENERAL_ERROR ∧
      st.get_cached_by_uid_mut uid = err_rv CKR_GENERAL_ERROR) ∧
    ((∀ r ∈ st.db, ¬(r.attr = CKA_UNIQUE_ID ∧ r.val = uid)) →
      st.fetch_by_uid uid = Except.error (KError.NotFound uid) ∧
      st.get_cached_by_uid_mut uid = Except.error (KError.NotFound uid)) ∧
    (∀ d, d ≠ 0 →
      (∃ r ∈ st.db, r.attr = CKA_UNIQUE_ID ∧ r.val = uid ∧ r.id = d) →
      (∀ r ∈ st.db, r.attr = CKA_UNIQUE_ID → r.val = uid → r.id = d) →
      (∃ o st2, st.fetch_by_uid uid = Except.ok (o, st2)) ∧
      (∃ o st2, st.get_cached_by_uid_mut uid = Except.ok (o, st2))) := by
  refine ⟨?_, ?_, ?_⟩
  · intro r1 r2 h1 h2 ha1 hv1 ha2 hv2 hne
    exact (fetch_uncached st uid hc).1 (KError.RvError CKR_GENERAL_ERROR)
      (search_uid_multi st.db uid r1 r2 h1 h2 ha1 hv1 ha2 hv2 hne)
  · intro hno
    exact (fetch_uncached st uid hc).1 (KError.NotFound uid)
      (search_uid_none st.db uid hno)
  · intro d hd hex hall
    obtain ⟨o, hs⟩ := search_uid_one st.db uid d hd hex hall
    have := (fetch_uncached st uid hc).2 o hs
    exact ⟨⟨_, _, this.1⟩, ⟨_, _, this.2⟩⟩

end Kryoptic

namespace Kryoptic

/-- Counterexample table for C5: object id 1 carries uid [65], id 5 another
uid, so MAX(id) is 5. -/
def c5Db : DB :=
  [⟨1, CKA_UNIQUE_ID, [65], 0⟩, ⟨1, CKA_VALUE, [9], 0⟩, ⟨5, CKA_UNIQUE_ID, [66], 0⟩]

/-- Counterexample object for C5: a token object carrying uid [65]. -/
def c5Obj : Object :=
  ⟨0, 0, true,
    [⟨CKA_TOKEN, AttrType.BoolType, [1]⟩,
     ⟨CKA_UNIQUE_ID, AttrType.BytesType, [65]⟩,
     ⟨CKA_LABEL, AttrType.BytesType, [7]⟩]⟩

/-- Claim C5 counterexample: storing a token object whose uid already has
rows re-inserts the attribute rows under the old object id 1 and allocates
nothing under MAX(id)+1 = 6, refuting the claim that the rows always land
under a newly allocated id MAX(id)+1. -/
theorem store_reuses_existing_id :
    c5Obj.is_token = true ∧
    maxId c5Db = 5 ∧
    ((SqliteStorage.store ⟨c5Db, []⟩ [65] c5Obj).toOption.map
      (fun st2 => (st2.db.any (fun r => r.id == 6),
                   st2.db.any (fun r => r.id == 1 && r.attr == CKA_LABEL)))) =
      some (false, true) := by decide

/-- The state C5's witness store call produces. -/
def c5St2 : SqliteStorage :=
  ⟨[⟨5, CKA_UNIQUE_ID, [66], 0⟩, ⟨1, CKA_TOKEN, [1], 0⟩,
    ⟨1, CKA_UNIQUE_ID, [65], 0⟩, ⟨1, CKA_LABEL, [7], 0⟩],
   [([65], ⟨0, 0, false, c5Obj.attributes⟩)]⟩

/-- Witness for C5 (amended) at the concrete table: the uid's old id 1 is
reused and the new rows are exactly the object's attributes. -/
theorem store_amended_witness :
    (∀ a ∈ c5Obj.attributes, (⟨1, a.get_type, a.get_value, 0⟩ : DbRow) ∈ c5St2.db) ∧
    (∀ r ∈ c5St2.db, r.id = 1 →
      ∃ a ∈ c5Obj.attributes, r = ⟨1, a.get_type, a.get_value, 0⟩) :=
  (store_amended ⟨c5Db, []⟩ [65] c5Obj c5St2 (by decide) (by decide) (by decide)).2.1
    1 (by decide) (by decide)

/-- Counterexample table for C10: two object ids both carry uid [65]. -/
def c10Db : DB := [⟨1, CKA_UNIQUE_ID, [65], 0⟩, ⟨2, CKA_UNIQUE_ID, [65], 0⟩]

/-- Counterexample cache entry for C10: a non-token object cached under uid
[65]. -/
def c10CachedObj : Object := ⟨3, 0, false, [⟨CKA_TOKEN, AttrType.BoolType, [0]⟩]⟩

def c10St : SqliteStorage := ⟨c10Db, [([65], c10CachedObj)]⟩

/-- Claim C10 counterexample: although rows of two distinct object ids
carry the uid, a cached (non-token) entry makes both lookups answer from
the cache with Ok instead of failing with GENERAL_ERROR. -/
theorem fetch_cached_bypasses_db :
    ((c10Db.filter (fun r => r.attr == CKA_UNIQUE_ID && r.val == [65])).map
      (fun r => r.id) = [1, 2]) ∧
    c10St.fetch_by_uid [65] = Except.ok (c10CachedObj, c10St) ∧
    c10St.get_cached_by_uid_mut [65] = Except.ok (c10CachedObj, c10St) := by decide

/-- Witness table for C10 (amended): a single object id 1 carries the
uid. -/
def c10DbW : DB := [⟨1, CKA_UNIQUE_ID, [65], 0⟩, ⟨1, CKA_VALUE, [9], 0⟩]

/-- Witness for C10 (amended): with an empty cache and exactly one object
id carrying the uid, both lookups return an object. -/
theorem fetch_by_uid_amended_witness :
    (∃ o st2, (⟨c10DbW, []⟩ : SqliteStorage).fetch_by_uid [65] = Except.ok (o, st2)) ∧
    (∃ o st2, (⟨c10DbW, []⟩ : SqliteStorage).get_cached_by_uid_mut [65] = Except.ok (o, st2)) :=
  (fetch_by_uid_amended ⟨c10DbW, []⟩ [65] (by decide)).2.2 1 (by decide)
    ⟨⟨1, CKA_UNIQUE_ID, [65], 0⟩, by decide, by decide, by decide, by decide⟩
    (by decide)

end Kryoptic
